import Mathlib

/-!
Verification of the Swin Transformer / Swin Transformer v2 / ViT notebooks.

The Python modules are shallowly embedded in Lean:
tensors indexed over `Fin` types (a `[B, H, W, *]` image tensor is a function
`Fin B → Fin H → Fin W → γ`, the trailing axes folded into `γ`), machine
floats modelled exactly (`ℚ` where only ring operations occur, `ℝ` where a
logarithm occurs), shape-level semantics as `List Nat` with `Option` for the
shape errors the tensor library raises, and Python exceptions as
`Except PyErr`.
-/

/-- A Python exception, as far as the embedded code can raise one. -/
inductive PyErr where
  | assertionError : PyErr
  | typeError : PyErr
  | runtimeError : PyErr
  | attributeError : PyErr
deriving DecidableEq, Repr

/-- Index arithmetic of `torch.roll` on one axis: the output at position `i`
reads the input at position `(i - displacement) mod n`. -/
def rollIndex (n : Nat) (d : Int) (i : Fin n) : Fin n :=
  ⟨(((i : Int) - d) % (n : Int)).toNat, by
    have hn : (0 : Int) < (n : Int) := by exact_mod_cast i.pos
    have h0 : 0 ≤ ((i : Int) - d) % (n : Int) := Int.emod_nonneg _ (by omega)
    have h1 : ((i : Int) - d) % (n : Int) < (n : Int) := Int.emod_lt_of_pos _ hn
    omega⟩

/-- CyclicShift.forward (v1 and v2, textually identical): `torch.roll` with the
configured displacement on dims `(1, 2)` of a `[B, H, W, *]` tensor; the
trailing axes (one axis or more) are folded into `γ`, so this covers every
input of rank at least 3. -/
def cyclicShiftForward {b h w : Nat} {γ : Type} (displacement : Int)
    (x : Fin b → Fin h → Fin w → γ) : Fin b → Fin h → Fin w → γ :=
  fun bi i j => x bi (rollIndex h displacement i) (rollIndex w displacement j)

/-- DropPath.forward of the v1 notebook. `keep` is the oracle for the
`bernoulli_(keep_prob)` draw of `random_tensor` (one draw per batch entry,
shape `(B, 1, ..., 1)`); `div_(keep_prob)` is applied when
`keep_prob > 0 and scale_by_keep`. -/
def dropPathForwardV1 {b : Nat} {ι : Type} (drop_prob : ℚ) (training scale_by_keep : Bool)
    (keep : Fin b → Bool) (x : Fin b → ι → ℚ) : Fin b → ι → ℚ :=
  if drop_prob = 0 ∨ training = false then x
  else
    let keep_prob : ℚ := 1 - drop_prob
    let random_tensor : Fin b → ℚ := fun i =>
      if 0 < keep_prob ∧ scale_by_keep = true then (if keep i then 1 else 0) / keep_prob
      else (if keep i then 1 else 0)
    fun i j => x i j * random_tensor i

/-- DropPath.forward of the v2 notebook (textually identical to the v1 one). -/
def dropPathForwardV2 {b : Nat} {ι : Type} (drop_prob : ℚ) (training scale_by_keep : Bool)
    (keep : Fin b → Bool) (x : Fin b → ι → ℚ) : Fin b → ι → ℚ :=
  if drop_prob = 0 ∨ training = false then x
  else
    let keep_prob : ℚ := 1 - drop_prob
    let random_tensor : Fin b → ℚ := fun i =>
      if 0 < keep_prob ∧ scale_by_keep = true then (if keep i then 1 else 0) / keep_prob
      else (if keep i then 1 else 0)
    fun i j => x i j * random_tensor i

/-- Python normalization of a possibly negative index into a dimension of
size `n`: a negative index counts from the end. -/
def pyIndex (n : Nat) (i : Int) : Int := if i < 0 then i + n else i

/-- Advanced indexing of a tensor dimension of size `n` with a possibly
negative integer index. -/
def tensorIndex (n : Nat) (i : Int) : Nat := (pyIndex n i).toNat

/-- Membership of position `i` in the Python slice `[-s:]` of a dimension of
size `n` (the start index `-s` is normalized by `pyIndex`). -/
abbrev sliceLastMem (n s i : Nat) : Prop := pyIndex n (-(s : Int)) ≤ (i : Int)

/-- Membership of position `i` in the Python slice `[:-s]` of a dimension of
size `n`. -/
abbrev sliceUntilLastMem (n s i : Nat) : Prop := (i : Int) < pyIndex n (-(s : Int))

/-- Membership of position `i` in the Python slice `[start::step]`. -/
abbrev strideSliceMem (start step i : Nat) : Prop := start ≤ i ∧ (i - start) % step = 0

/-- Entry `(d0, d1, d2, d3)` of the `[w, w, w, w]` tensor built by
StageModule.__create_mask for `left_right_mask`: starting from ones, the
assignments `[:, -s:, :, :-s] = 0` and `[:, :-s, :, -s:] = 0` zero the listed
index ranges (`w` is `window_size`, `s` is `shift_size`). -/
def left_right_mask_entry (w s d0 d1 d2 d3 : Nat) : Nat :=
  if (sliceLastMem w s d1 ∧ sliceUntilLastMem w s d3) ∨
     (sliceUntilLastMem w s d1 ∧ sliceLastMem w s d3) then 0 else 1

/-- The `left_right_mask` buffer after `view(w ** 2, w ** 2)`: row `p` stands
for the pair `(p / w, p % w)` of the first two dims and column `q` for the
pair `(q / w, q % w)` of the last two. -/
def left_right_mask (w s p q : Nat) : Nat :=
  left_right_mask_entry w s (p / w) (p % w) (q / w) (q % w)

/-- The `upper_lower_mask` buffer of StageModule.__create_mask: a
`[w ** 2, w ** 2]` tensor of ones with `[-s * w:, :-s * w] = 0` and
`[:-s * w, -s * w:] = 0`. -/
def upper_lower_mask (w s p q : Nat) : Nat :=
  if (sliceLastMem (w * w) (s * w) p ∧ sliceUntilLastMem (w * w) (s * w) q) ∨
     (sliceUntilLastMem (w * w) (s * w) p ∧ sliceLastMem (w * w) (s * w) q) then 0 else 1

/-- The statement `scores[:, :, -nw_w:].masked_fill_(mask[0] == 0, -1e9)` of
WindowAttention.forward (v1), with `mask[0]` the `upper_lower_mask`. Scores
are indexed by flattened window index `wi` (row-major over the
`nw_h x nw_w` grid of windows) and a pair `p, q` of positions inside the
window; the batch and head dims, over which the mask is broadcast, are
omitted. -/
def maskedFillUpperLower (nw_h nw_w w s : Nat) (scores : Nat → Nat → Nat → ℚ) :
    Nat → Nat → Nat → ℚ :=
  fun wi p q =>
    if sliceLastMem (nw_h * nw_w) nw_w wi ∧ upper_lower_mask w s p q = 0
    then -1000000000 else scores wi p q

/-- The statement `scores[:, :, nw_w - 1::nw_w].masked_fill_(mask[1] == 0, -1e9)`
of WindowAttention.forward (v1), with `mask[1]` the `left_right_mask`. -/
def maskedFillLeftRight (nw_h nw_w w s : Nat) (scores : Nat → Nat → Nat → ℚ) :
    Nat → Nat → Nat → ℚ :=
  fun wi p q =>
    if strideSliceMem (nw_w - 1) nw_w wi ∧ left_right_mask w s p q = 0
    then -1000000000 else scores wi p q

/-- The two in-place `masked_fill_` statements of WindowAttention.forward (v1)
in source order: first the upper/lower mask on the last row of windows, then
the left/right mask on the last column of windows. -/
def windowMaskedScores (nw_h nw_w w s : Nat) (scores : Nat → Nat → Nat → ℚ) :
    Nat → Nat → Nat → ℚ :=
  maskedFillLeftRight nw_h nw_w w s (maskedFillUpperLower nw_h nw_w w s scores)

/-- The list `[[i, j] for i in range(window_size) for j in range(window_size)]`
from which WindowAttention.__register_relative_distances (v1) builds its
`indices` tensor; the `meshgrid`/`stack`/`flatten`/`transpose` pipeline of
the v2 __set_relative_distances produces row `k` of exactly the same
row-major enumeration. -/
def indicesList (window_size : Nat) : List (Int × Int) :=
  (List.range window_size).flatMap fun (i : Nat) =>
    (List.range window_size).map fun (j : Nat) => ((i : Int), (j : Int))

/-- The `relative_indices` buffer of the v1 WindowAttention:
`distances = indices[None, :, :] - indices[:, None, :]`, so entry `(p, q)` is
`indices[q] - indices[p]`. -/
def relative_indices (w p q : Nat) : Int × Int :=
  (indicesList w).getD q (0, 0) - (indicesList w).getD p (0, 0)

/-- The cell of the `(2w - 1) x (2w - 1)` positional-bias table read for the
pair `(p, q)` by `pos_embedding[:, :, relative_indices[:, :, 0],
relative_indices[:, :, 1]]` in WindowAttention.forward (v1); a negative
relative index selects from the end of the table. -/
def posEmbeddingCell (w p q : Nat) : Nat × Nat :=
  (tensorIndex (2 * w - 1) (relative_indices w p q).1,
   tensorIndex (2 * w - 1) (relative_indices w p q).2)

/-- The bias value added to the attention score of the pair `(p, q)`, for one
head whose `pos_embedding` table is `pe`. -/
def posEmbeddingLookup (w : Nat) (pe : Nat → Nat → ℚ) (p q : Nat) : ℚ :=
  pe (posEmbeddingCell w p q).1 (posEmbeddingCell w p q).2

/-- The `relative_distances` tensor of the v2 WindowAttention.__set_relative_distances:
`coordinates[None, :, :] - coordinates[:, None, :]`, where `coordinates` is the
`[window_size ** 2, 2]` result of the `arange`/`meshgrid`/`stack`/`flatten(1)`/
`transpose(0, 1)` pipeline, whose row `k` is the row-major pair enumerated by
`indicesList`. -/
def relative_distances (w p q : Nat) : Int × Int :=
  (indicesList w).getD q (0, 0) - (indicesList w).getD p (0, 0)

/-- The map `d ↦ torch.sign(d) * torch.log(torch.abs(d) + 1)` applied
componentwise by the v2 __set_relative_distances (log is the real logarithm;
the float arithmetic is modelled over `ℝ`). -/
noncomputable def signLog (d : Int) : ℝ :=
  (Int.sign d : ℝ) * Real.log (|(d : ℝ)| + 1)

/-- The `relative_distances_log` buffer registered by the v2
WindowAttention.__set_relative_distances. -/
noncomputable def relative_distances_log (w p q : Nat) : ℝ × ℝ :=
  (signLog (relative_distances w p q).1, signLog (relative_distances w p q).2)

/-- The pair of mask buffers a StageModule hands to its shifted blocks. -/
abbrev MaskPair : Type := (Nat → Nat → Nat) × (Nat → Nat → Nat)

/-- SwinBlock.forward of the v2 notebook, which reads
`x + self.drop_path(self.norm1(self.attention(x), mask))`: the WindowAttention
call receives no mask (its mask parameter defaults to None), and `mask` is
instead passed to `nn.LayerNorm` as an extra positional argument, which raises
a TypeError (LayerNorm.forward takes a single input) after the attention value
has been computed. `attn` is the embedded attention forward, which may itself
raise. -/
def swinBlockForwardV2Calls {T M : Type} (attn : T → Option M → Except PyErr T)
    (x : T) (mask : Option M) : Except PyErr T :=
  (attn x none).bind fun _a => Except.error PyErr.typeError

/-! Shape-level semantics of the tensor operations the notebooks use. A shape
is the list of dimension sizes; `none` is the error the tensor library raises
for incompatible shapes. -/

/-- The shape of a tensor: its list of dimension sizes. -/
abbrev Shape : Type := List Nat

/-- Number of elements of a shape. -/
def numel (s : Shape) : Nat := s.prod

/-- Shape semantics of `Tensor.view` with explicit target sizes: the element
count must be preserved. -/
def viewShape (s : Shape) (target : Shape) : Option Shape :=
  if numel target = numel s then some target else none

/-- Shape semantics of `Tensor.view` with a single `-1` between the explicit
sizes `pre` and `post`: the missing size is inferred from the element count. -/
def viewInferShape (s : Shape) (pre post : Shape) : Option Shape :=
  let rest := numel pre * numel post
  if 0 < rest ∧ rest ∣ numel s then some (pre ++ [numel s / rest] ++ post) else none

/-- Shape semantics of `transpose(-2, -1)`. -/
def transposeLast2 (s : Shape) : Option Shape :=
  match s.reverse with
  | a :: b :: rest => some ((b :: a :: rest).reverse)
  | _ => none

/-- Broadcasting of two shapes given in reversed (trailing-first) order:
matching dims must be equal or one of them 1. -/
def broadcastRev : List Nat → List Nat → Option (List Nat)
  | [], ys => some ys
  | x :: xs, [] => some (x :: xs)
  | x :: xs, y :: ys =>
      (broadcastRev xs ys).bind fun rest =>
        if x = y then some (x :: rest)
        else if x = 1 then some (y :: rest)
        else if y = 1 then some (x :: rest)
        else none

/-- Shape of an elementwise binary operation (such as `+`) with broadcasting. -/
def broadcastShape (s1 s2 : Shape) : Option Shape :=
  (broadcastRev s1.reverse s2.reverse).map List.reverse

/-- Shape semantics of batched `torch.matmul`: the last dim of the first
factor must equal the second-to-last of the second, batch dims broadcast. -/
def matmulShape (s1 s2 : Shape) : Option Shape :=
  match s1.reverse, s2.reverse with
  | m :: n :: b1, p :: m2 :: b2 =>
      if m = m2 then (broadcastRev b1 b2).map fun bd => (p :: n :: bd).reverse else none
  | _, _ => none

/-- Shape semantics of `nn.Linear(in_f, out_f)`: the last dim must equal
`in_f` and becomes `out_f`. -/
def linearShape (in_f out_f : Nat) (s : Shape) : Option Shape :=
  match s.reverse with
  | a :: rest => if a = in_f then some ((out_f :: rest).reverse) else none
  | [] => none

/-- Shape semantics of `nn.LayerNorm(n)`: the last dim must equal `n`. -/
def layerNormShape (n : Nat) (s : Shape) : Option Shape :=
  match s.reverse with
  | a :: _ => if a = n then some s else none
  | [] => none

/-- Shape semantics of `Tensor.permute`. -/
def permuteShape (s : Shape) (perm : List Nat) : Option Shape :=
  if perm.length = s.length ∧ perm.Nodup ∧ ∀ i ∈ perm, i < s.length
  then some (perm.map fun i => s.getD i 0) else none

/-- Shape semantics of `mean(dim=[2, 3])` on a tensor of rank at least 4. -/
def meanDims23 (s : Shape) : Option Shape :=
  if 4 ≤ s.length then some (s.take 2 ++ s.drop 4) else none

/-- Shape semantics of `nn.Unfold(kernel_size=df, stride=df, padding=0)` on a
`[B, C, H, W]` input. -/
def unfoldShape (df : Nat) (s : Shape) : Option Shape :=
  match s with
  | [b, c, h, w] =>
      if 0 < df ∧ df ≤ h ∧ df ≤ w
      then some [b, c * (df * df), ((h - df) / df + 1) * ((w - df) / df + 1)]
      else none
  | _ => none

/-- Shape semantics of `nn.Conv2d(c_in, c_out, kernel_size=k, stride=st)` on a
`[B, C, H, W]` input. -/
def conv2dShape (c_in c_out k st : Nat) (s : Shape) : Option Shape :=
  match s with
  | [b, c, h, w] =>
      if c = c_in ∧ 0 < st ∧ k ≤ h ∧ k ≤ w
      then some [b, c_out, (h - k) / st + 1, (w - k) / st + 1]
      else none
  | _ => none

/-- Shape semantics of `flatten(2)` on a rank-4 tensor. -/
def flattenFrom2 (s : Shape) : Option Shape :=
  match s with
  | [b, d, h, w] => some [b, d, h * w]
  | _ => none

/-- Shape semantics of `transpose(1, 2)`. -/
def transpose12 (s : Shape) : Option Shape :=
  match s with
  | a :: b :: c :: rest => some (a :: c :: b :: rest)
  | _ => none

/-- Shape semantics of `torch.cat([·, ·], dim=1)` on rank-3 tensors. -/
def catDim1 (s1 s2 : Shape) : Option Shape :=
  match s1, s2 with
  | [a, n, c], [a2, n2, c2] => if a = a2 ∧ c = c2 then some [a, n + n2, c] else none
  | _, _ => none

/-- Shape semantics of the indexing `x[:, 0]` on a rank-3 tensor. -/
def selectDim1Zero (s : Shape) : Option Shape :=
  match s with
  | [b, n, d] => if 0 < n then some [b, d] else none
  | _ => none

/-- The v1 WindowAttention module: its configuration and its one non-learned
buffer `relative_indices` (the learned tensors play no part in the shape
semantics). -/
structure WindowAttentionV1 where
  in_features : Nat
  window_size : Nat
  number_of_heads : Nat
  shift_size : Nat
  d_k : Nat
  relative_indices : Nat → Nat → Int × Int

/-- The body of WindowAttention.__init__ (v1) after its assert:
`d_k = in_features // number_of_heads` and the `relative_indices` buffer
registered by __register_relative_distances. -/
def initWindowAttentionV1 (in_features window_size number_of_heads shift_size : Nat) :
    WindowAttentionV1 where
  in_features := in_features
  window_size := window_size
  number_of_heads := number_of_heads
  shift_size := shift_size
  d_k := in_features / number_of_heads
  relative_indices := relative_indices window_size

/-- WindowAttention.__init__ (v1) with its
`assert in_features % number_of_heads == 0`. -/
def newWindowAttentionV1 (in_features window_size number_of_heads shift_size : Nat) :
    Except PyErr WindowAttentionV1 :=
  if in_features % number_of_heads = 0
  then Except.ok (initWindowAttentionV1 in_features window_size number_of_heads shift_size)
  else Except.error PyErr.assertionError

/-- Shape semantics of FeedForward.forward (both notebooks): two linear
layers; GELU and the dropouts keep the shape. -/
def feedForwardShape (in_features hidden_features out_features : Nat) (s : Shape) :
    Option Shape :=
  (linearShape in_features hidden_features s).bind fun s1 =>
    linearShape hidden_features out_features s1

/-- Shape semantics of WindowAttention.forward (v1) on a `[B, H, W, C]` input.
The cyclic shifts keep the shape; `query`, `key`, `value` share the shape of
the `lin(x).view(...).permute(...).view(...)` pipeline; `scores` is the
batched matmul divided by the scalar `sqrt(d_k)` plus the broadcast
`pos_embedding` lookup of shape `[heads, 1, ws^2, ws^2]`; under
`if self.shift_size:` the two `masked_fill_` statements subscript `mask`,
which raises if the mask tuple was not supplied (their `[ws^2, ws^2]` masks
always broadcast over the score slices, so they do not constrain shapes
further); then `matmul` with `value`, the inverse view/permute pipeline and
the output projection. -/
def WindowAttentionV1.forwardShape (wa : WindowAttentionV1) (s : Shape)
    (mask : Option MaskPair) : Option Shape :=
  match s with
  | [b, h, w, c] =>
      let nw_h := h / wa.window_size
      let nw_w := w / wa.window_size
      (linearShape wa.in_features wa.in_features [b, h, w, c]).bind fun s1 =>
      (viewShape s1 [b, nw_h, wa.window_size, nw_w, wa.window_size,
        wa.number_of_heads, wa.d_k]).bind fun s2 =>
      (permuteShape s2 [0, 5, 1, 3, 2, 4, 6]).bind fun s3 =>
      (viewShape s3 [b, wa.number_of_heads, nw_h * nw_w,
        wa.window_size * wa.window_size, wa.d_k]).bind fun q =>
      (transposeLast2 q).bind fun kT =>
      (matmulShape q kT).bind fun sc0 =>
      (broadcastShape sc0 [wa.number_of_heads, 1, wa.window_size * wa.window_size,
        wa.window_size * wa.window_size]).bind fun sc =>
      (match wa.shift_size, mask with
       | 0, _ => some sc
       | _ + 1, some _ => some sc
       | _ + 1, none => none).bind fun sc2 =>
      (matmulShape sc2 q).bind fun x1 =>
      (viewShape x1 [b, wa.number_of_heads, nw_h, nw_w, wa.window_size,
        wa.window_size, wa.d_k]).bind fun x2 =>
      (permuteShape x2 [0, 2, 4, 3, 5, 1, 6]).bind fun x3 =>
      (viewInferShape x3 [b, h, w] []).bind fun x4 =>
      linearShape wa.in_features wa.in_features x4
  | _ => none

/-- The v1 SwinBlock: its configuration and its WindowAttention submodule
(`ffnFactor` is the `ffn_feature_ratio` argument). -/
structure SwinBlockV1 where
  in_features : Nat
  window_size : Nat
  number_of_heads : Nat
  shift_size : Nat
  ffnFactor : Nat
  attention : WindowAttentionV1

/-- The body of SwinBlock.__init__ (v1). -/
def initSwinBlockV1 (in_features window_size number_of_heads shift_size ffnFactor : Nat) :
    SwinBlockV1 where
  in_features := in_features
  window_size := window_size
  number_of_heads := number_of_heads
  shift_size := shift_size
  ffnFactor := ffnFactor
  attention := initWindowAttentionV1 in_features window_size number_of_heads shift_size

/-- SwinBlock.__init__ (v1); the only assert is the one of the
WindowAttention it constructs. -/
def newSwinBlockV1 (in_features window_size number_of_heads shift_size ffnFactor : Nat) :
    Except PyErr SwinBlockV1 :=
  (newWindowAttentionV1 in_features window_size number_of_heads shift_size).map fun wa =>
    { in_features := in_features, window_size := window_size,
      number_of_heads := number_of_heads, shift_size := shift_size,
      ffnFactor := ffnFactor, attention := wa }

/-- Shape semantics of SwinBlock.forward (v1):
`x = x + drop_path(attention(norm1(x), mask))` then
`x + drop_path(feed_forward(norm2(x)))`; the residual adds broadcast. -/
def SwinBlockV1.forwardShape (blk : SwinBlockV1) (s : Shape) (mask : Option MaskPair) :
    Option Shape :=
  (layerNormShape blk.in_features s).bind fun s1 =>
  (blk.attention.forwardShape s1 mask).bind fun a =>
  (broadcastShape s a).bind fun s2 =>
  (layerNormShape blk.in_features s2).bind fun s3 =>
  (feedForwardShape blk.in_features (blk.in_features * blk.ffnFactor) blk.in_features s3).bind fun f =>
  broadcastShape s2 f

/-- Shape semantics of PatchMerging.forward (v1; the v2 one adds a
shape-preserving LayerNorm): `patch_merge` is the `nn.Unfold`, then
`view(b, -1, new_h, new_w)`, `permute(0, 2, 3, 1)` and the linear
projection from `in_channels * downscaling_factor ** 2` features. -/
def patchMergingForwardShape (in_channels out_channels downscaling_factor : Nat)
    (s : Shape) : Option Shape :=
  match s with
  | [b, c, h, w] =>
      (unfoldShape downscaling_factor [b, c, h, w]).bind fun u =>
      (viewInferShape u [b] [h / downscaling_factor, w / downscaling_factor]).bind fun v =>
      (permuteShape v [0, 2, 3, 1]).bind fun p =>
      linearShape (in_channels * downscaling_factor ^ 2) out_channels p
  | _ => none

/-- The v1 StageModule: its PatchMerging configuration, its two block lists
and its two mask buffers. -/
structure StageModuleV1 where
  in_channels : Nat
  in_features : Nat
  window_size : Nat
  shift_size : Nat
  downscaling_factor : Nat
  layers_regular : List SwinBlockV1
  layers_shifted : List SwinBlockV1
  upper_lower_mask : Nat → Nat → Nat
  left_right_mask : Nat → Nat → Nat

/-- The body of StageModule.__init__ (v1) after its assert:
`shift_size = window_size // 2`, `layers // 2` regular blocks with shift 0,
`layers // 2` shifted blocks with shift `window_size // 2`, and the two mask
buffers of __create_mask. -/
def initStageModuleV1 (in_channels in_features window_size number_of_heads
    ffnFactor layers downscaling_factor : Nat) : StageModuleV1 where
  in_channels := in_channels
  in_features := in_features
  window_size := window_size
  shift_size := window_size / 2
  downscaling_factor := downscaling_factor
  layers_regular := List.replicate (layers / 2)
    (initSwinBlockV1 in_features window_size number_of_heads 0 ffnFactor)
  layers_shifted := List.replicate (layers / 2)
    (initSwinBlockV1 in_features window_size number_of_heads (window_size / 2) ffnFactor)
  upper_lower_mask := upper_lower_mask window_size (window_size / 2)
  left_right_mask := left_right_mask window_size (window_size / 2)

/-- The list comprehension `[mk(...) for _ in range(n)]` over a module
constructor: builds `n` modules in sequence and propagates the first
constructor exception; for `n = 0` no constructor runs and the empty list is
returned. -/
def constructList {α : Type} (mk : Except PyErr α) : Nat → Except PyErr (List α)
  | 0 => Except.ok []
  | n + 1 =>
      mk.bind fun a => (constructList mk n).bind fun rest => Except.ok (a :: rest)

/-- StageModule.__init__ (v1) with its `assert layers % 2 == 0`; the asserts
of the SwinBlocks only run while the `range(layers // 2)` comprehensions
construct them, so with `layers = 0` no block assert is evaluated. -/
def newStageModuleV1 (in_channels in_features window_size number_of_heads
    ffnFactor layers downscaling_factor : Nat) : Except PyErr StageModuleV1 :=
  if layers % 2 = 0 then
    (constructList (newSwinBlockV1 in_features window_size number_of_heads 0 ffnFactor)
        (layers / 2)).bind fun regs =>
    (constructList (newSwinBlockV1 in_features window_size number_of_heads
        (window_size / 2) ffnFactor) (layers / 2)).bind fun shfs =>
    Except.ok
      { in_channels := in_channels, in_features := in_features,
        window_size := window_size, shift_size := window_size / 2,
        downscaling_factor := downscaling_factor,
        layers_regular := regs, layers_shifted := shfs,
        upper_lower_mask := upper_lower_mask window_size (window_size / 2),
        left_right_mask := left_right_mask window_size (window_size / 2) }
  else Except.error PyErr.assertionError

/-- The loop of StageModule.forward (v1):
`for layer_regular, layer_shifted in zip(self.layers_regular,
self.layers_shifted): x = layer_regular(x); x = layer_shifted(x,
(self.upper_lower_mask, self.left_right_mask))`. The block application `f` is
a parameter so that the loop structure is shared by the shape semantics and
the structural theorems; `zip` stops at the shorter list. -/
def stageLoopV1 {T : Type} (f : SwinBlockV1 → T → Option MaskPair → T) :
    List SwinBlockV1 → List SwinBlockV1 → MaskPair → T → T
  | r :: rs, sh :: ss, m, x => stageLoopV1 f rs ss m (f sh (f r x none) (some m))
  | _, _, _, x => x

/-- Shape semantics of StageModule.forward (v1): patch merging, the block
loop, then `permute(0, 3, 1, 2)`. -/
def StageModuleV1.forwardShape (st : StageModuleV1) (s : Shape) : Option Shape :=
  (patchMergingForwardShape st.in_channels st.in_features st.downscaling_factor s).bind
    fun x0 =>
  (stageLoopV1 (fun blk t m => t.bind fun sh => blk.forwardShape sh m)
    st.layers_regular st.layers_shifted (st.upper_lower_mask, st.left_right_mask)
    (some x0)).bind fun xl =>
  permuteShape xl [0, 3, 1, 2]

/-- The v1 SwinTransformer: four stages and the classification head. -/
structure SwinTransformerV1 where
  stage1 : StageModuleV1
  stage2 : StageModuleV1
  stage3 : StageModuleV1
  stage4 : StageModuleV1
  in_features : Nat
  num_classes : Nat

/-- The body of SwinTransformer.__init__ (v1): the four stages with doubled
feature widths and the `mlp_head = LayerNorm(8 in_features) ∘ Linear`. -/
def initSwinTransformerV1 (in_channels num_classes in_features window_size : Nat)
    (heads num_layers downscaling_factors : Nat × Nat × Nat × Nat)
    (ffnFactor : Nat) : SwinTransformerV1 where
  stage1 := initStageModuleV1 in_channels in_features window_size heads.1
    ffnFactor num_layers.1 downscaling_factors.1
  stage2 := initStageModuleV1 in_features (in_features * 2) window_size heads.2.1
    ffnFactor num_layers.2.1 downscaling_factors.2.1
  stage3 := initStageModuleV1 (in_features * 2) (in_features * 4) window_size heads.2.2.1
    ffnFactor num_layers.2.2.1 downscaling_factors.2.2.1
  stage4 := initStageModuleV1 (in_features * 4) (in_features * 8) window_size heads.2.2.2
    ffnFactor num_layers.2.2.2 downscaling_factors.2.2.2
  in_features := in_features
  num_classes := num_classes

/-- Shape semantics of SwinTransformer.forward (v1): the four stages,
`mean(dim=[2, 3])`, then the `mlp_head` (LayerNorm and Linear). -/
def SwinTransformerV1.forwardShape (m : SwinTransformerV1) (s : Shape) : Option Shape :=
  (m.stage1.forwardShape s).bind fun s1 =>
  (m.stage2.forwardShape s1).bind fun s2 =>
  (m.stage3.forwardShape s2).bind fun s3 =>
  (m.stage4.forwardShape s3).bind fun s4 =>
  (meanDims23 s4).bind fun mn =>
  (layerNormShape (m.in_features * 8) mn).bind fun n1 =>
  linearShape (m.in_features * 8) m.num_classes n1

/-- Shape semantics of PatchEmbedding.forward (ViT): the patch convolution,
`flatten(2)`, `transpose(1, 2)`, then `torch.cat` with the class token
expanded to `[b, 1, d_model]`. -/
def patchEmbeddingForwardShape (patch_size channels_in d_model : Nat) (s : Shape) :
    Option Shape :=
  (conv2dShape channels_in d_model patch_size patch_size s).bind fun c =>
  (flattenFrom2 c).bind fun f =>
  (transpose12 f).bind fun t =>
  match t with
  | [b, np, dd] => catDim1 [b, 1, d_model] [b, np, dd]
  | _ => none

/-- Shape semantics of PositionalEmbedding.forward (ViT):
`x + self.pos_embedding` with the `[1, num_steps, d_model]` parameter
broadcast against `x`; the dropout keeps the shape. -/
def positionalEmbeddingForwardShape (num_steps d_model : Nat) (s : Shape) :
    Option Shape :=
  broadcastShape s [1, num_steps, d_model]

/-- Shape semantics of MultiHeadAttention.forward (ViT) with `mask = None` (the
only way ViT.encode calls it): the three projections, `view(nbatches, -1, h,
d_k)`, `transpose(1, 2)`, the scaled-dot-product `attention`, the inverse
`transpose`/`view` and the output projection. -/
def multiHeadAttentionForwardShape (h d_k d_model : Nat) (sq sk sv : Shape) :
    Option Shape :=
  match sq with
  | nb :: _ =>
      (linearShape d_model d_model sq).bind fun q1 =>
      (viewInferShape q1 [nb] [h, d_k]).bind fun q2 =>
      (transpose12 q2).bind fun q3 =>
      (linearShape d_model d_model sk).bind fun k1 =>
      (viewInferShape k1 [nb] [h, d_k]).bind fun k2 =>
      (transpose12 k2).bind fun k3 =>
      (linearShape d_model d_model sv).bind fun v1 =>
      (viewInferShape v1 [nb] [h, d_k]).bind fun v2 =>
      (transpose12 v2).bind fun v3 =>
      (transposeLast2 k3).bind fun kT =>
      (matmulShape q3 kT).bind fun sc =>
      (matmulShape sc v3).bind fun x1 =>
      (transpose12 x1).bind fun x2 =>
      (viewInferShape x2 [nb] [h * d_k]).bind fun x3 =>
      linearShape d_model d_model x3
  | [] => none

/-- Shape semantics of PositionwiseFeedForward.forward (ViT). -/
def positionwiseFeedForwardShape (d_model d_ff : Nat) (s : Shape) : Option Shape :=
  (linearShape d_model d_ff s).bind fun s1 => linearShape d_ff d_model s1

/-- Shape semantics of EncoderLayer.forward (ViT): the two SublayerConnection
residuals `x + dropout(sublayer(norm(x)))` around self-attention and the
feed-forward. -/
def encoderLayerForwardShape (h d_k d_model d_ff : Nat) (s : Shape) : Option Shape :=
  (layerNormShape d_model s).bind fun n1 =>
  (multiHeadAttentionForwardShape h d_k d_model n1 n1 n1).bind fun a =>
  (broadcastShape s a).bind fun s1 =>
  (layerNormShape d_model s1).bind fun n2 =>
  (positionwiseFeedForwardShape d_model d_ff n2).bind fun f =>
  broadcastShape s1 f

/-- Shape semantics of Encoder.forward (ViT): `N` cloned layers in sequence,
then the final LayerNorm. -/
def encoderForwardShape (h d_k d_model d_ff n_layers : Nat) (s : Shape) : Option Shape :=
  ((List.range n_layers).foldl
    (fun t _ => t.bind (encoderLayerForwardShape h d_k d_model d_ff)) (some s)).bind
    (layerNormShape d_model)

/-- Shape semantics of ViT.forward as wired by make_model:
`generator(encode(x)[:, 0])` with `encode(x) = encoder(embed(x), mask=None)`
and `embed = Sequential(PatchEmbedding, PositionalEmbedding)`;
`d_k = d_model // h` as set by MultiHeadAttention.__init__. -/
def vitForwardShape (patch_size channels_in d_model num_classes h n_layers d_ff
    num_steps : Nat) (s : Shape) : Option Shape :=
  (patchEmbeddingForwardShape patch_size channels_in d_model s).bind fun e =>
  (positionalEmbeddingForwardShape num_steps d_model e).bind fun p =>
  (encoderForwardShape h (d_model / h) d_model d_ff n_layers p).bind fun enc =>
  (selectDim1Zero enc).bind fun cls =>
  linearShape d_model num_classes cls

/-- MultiHeadAttention.__init__ (ViT) with its `assert d_model % h == 0`. -/
def newMultiHeadAttention (h d_model : Nat) : Except PyErr (Nat × Nat) :=
  if d_model % h = 0 then Except.ok (h, d_model / h) else Except.error PyErr.assertionError

/-- An `Option`-level library shape error lifted into the Python exceptions
(the tensor library raises RuntimeError for shape mismatches). -/
def liftShape (o : Option Shape) : Except PyErr Shape :=
  match o with
  | some s => Except.ok s
  | none => Except.error PyErr.runtimeError

/-- The v2 WindowAttention module with its non-learned
`relative_distances_log` buffer. -/
structure WindowAttentionV2 where
  in_features : Nat
  window_size : Nat
  number_of_heads : Nat
  shift_size : Nat
  d_k : Nat
  relative_distances_log : Nat → Nat → ℝ × ℝ

/-- The body of WindowAttention.__init__ (v2) after its assert. -/
noncomputable def initWindowAttentionV2 (in_features window_size number_of_heads
    shift_size : Nat) : WindowAttentionV2 where
  in_features := in_features
  window_size := window_size
  number_of_heads := number_of_heads
  shift_size := shift_size
  d_k := in_features / number_of_heads
  relative_distances_log := relative_distances_log window_size

/-- WindowAttention.__init__ (v2) with its
`assert in_features % number_of_heads == 0`. -/
noncomputable def newWindowAttentionV2 (in_features window_size number_of_heads
    shift_size : Nat) : Except PyErr WindowAttentionV2 :=
  if in_features % number_of_heads = 0
  then Except.ok (initWindowAttentionV2 in_features window_size number_of_heads shift_size)
  else Except.error PyErr.assertionError

/-- Shape-level semantics of WindowAttention.forward (v2). The q/k/v pipeline
is that of v1; the cosine-similarity denominator
`torch.maximum(norm * norm, 1e-6)` is modelled charitably as
shape-preserving (several torch versions refuse the float argument outright).
The next line, `scores /= max(self.tau, 0.01)`, calls the Python builtin
`max` on the `[1, number_of_heads, 1, 1]` tensor `tau`: with more than one
head the implied boolean test on a multi-element tensor raises a
RuntimeError; with one head execution continues to
`self.__get_positional_encoding()`, which reads `self.num_of_heads` — an
attribute `__init__` never sets (the field is `number_of_heads`) — and raises
an AttributeError. The forward therefore never reaches its masking or output
statements. -/
def WindowAttentionV2.forwardShape (wa : WindowAttentionV2) (s : Shape)
    (mask : Option MaskPair) : Except PyErr Shape :=
  match s with
  | [b, h, w, c] =>
      let nw_h := h / wa.window_size
      let nw_w := w / wa.window_size
      (liftShape (linearShape wa.in_features wa.in_features [b, h, w, c])).bind fun s1 =>
      (liftShape (viewShape s1 [b, nw_h, wa.window_size, nw_w, wa.window_size,
        wa.number_of_heads, wa.d_k])).bind fun s2 =>
      (liftShape (permuteShape s2 [0, 5, 1, 3, 2, 4, 6])).bind fun s3 =>
      (liftShape (viewShape s3 [b, wa.number_of_heads, nw_h * nw_w,
        wa.window_size * wa.window_size, wa.d_k])).bind fun q =>
      (liftShape (transposeLast2 q)).bind fun kT =>
      (liftShape (matmulShape q kT)).bind fun _sc0 =>
      if 1 < wa.number_of_heads then Except.error PyErr.runtimeError
      else Except.error PyErr.attributeError
  | _ => Except.error PyErr.runtimeError

/-- The v2 SwinBlock. -/
structure SwinBlockV2 where
  in_features : Nat
  window_size : Nat
  number_of_heads : Nat
  shift_size : Nat
  ffnFactor : Nat
  attention : WindowAttentionV2

/-- The body of SwinBlock.__init__ (v2). -/
noncomputable def initSwinBlockV2 (in_features window_size number_of_heads shift_size
    ffnFactor : Nat) : SwinBlockV2 where
  in_features := in_features
  window_size := window_size
  number_of_heads := number_of_heads
  shift_size := shift_size
  ffnFactor := ffnFactor
  attention := initWindowAttentionV2 in_features window_size number_of_heads shift_size

/-- Shape-level semantics of SwinBlock.forward (v2): the line
`x = x + self.drop_path(self.norm1(self.attention(x), mask))` evaluates
`self.attention(x)` first — with no mask argument, so its mask parameter
defaults to None — and then calls `self.norm1` with the extra positional
argument `mask`, which raises a TypeError whatever `mask` is. -/
def SwinBlockV2.forwardShape (blk : SwinBlockV2) (s : Shape) (mask : Option MaskPair) :
    Except PyErr Shape :=
  (blk.attention.forwardShape s none).bind fun _a => Except.error PyErr.typeError

/-- The v2 StageModule; __create_mask is textually the v1 one. -/
structure StageModuleV2 where
  in_channels : Nat
  in_features : Nat
  window_size : Nat
  shift_size : Nat
  downscaling_factor : Nat
  layers_regular : List SwinBlockV2
  layers_shifted : List SwinBlockV2
  upper_lower_mask : Nat → Nat → Nat
  left_right_mask : Nat → Nat → Nat

/-- The body of StageModule.__init__ (v2) after its assert. -/
noncomputable def initStageModuleV2 (in_channels in_features window_size number_of_heads
    ffnFactor layers downscaling_factor : Nat) : StageModuleV2 where
  in_channels := in_channels
  in_features := in_features
  window_size := window_size
  shift_size := window_size / 2
  downscaling_factor := downscaling_factor
  layers_regular := List.replicate (layers / 2)
    (initSwinBlockV2 in_features window_size number_of_heads 0 ffnFactor)
  layers_shifted := List.replicate (layers / 2)
    (initSwinBlockV2 in_features window_size number_of_heads (window_size / 2) ffnFactor)
  upper_lower_mask := upper_lower_mask window_size (window_size / 2)
  left_right_mask := left_right_mask window_size (window_size / 2)

/-- SwinBlock.__init__ (v2); the only assert is the one of the
WindowAttention it constructs. -/
noncomputable def newSwinBlockV2 (in_features window_size number_of_heads shift_size
    ffnFactor : Nat) : Except PyErr SwinBlockV2 :=
  (newWindowAttentionV2 in_features window_size number_of_heads shift_size).map fun wa =>
    { in_features := in_features, window_size := window_size,
      number_of_heads := number_of_heads, shift_size := shift_size,
      ffnFactor := ffnFactor, attention := wa }

/-- StageModule.__init__ (v2) with its `assert layers % 2 == 0`; as in v1,
the block asserts only run while the `range(layers // 2)` comprehensions
construct blocks. -/
noncomputable def newStageModuleV2 (in_channels in_features window_size number_of_heads
    ffnFactor layers downscaling_factor : Nat) : Except PyErr StageModuleV2 :=
  if layers % 2 = 0 then
    (constructList (newSwinBlockV2 in_features window_size number_of_heads 0 ffnFactor)
        (layers / 2)).bind fun regs =>
    (constructList (newSwinBlockV2 in_features window_size number_of_heads
        (window_size / 2) ffnFactor) (layers / 2)).bind fun shfs =>
    Except.ok
      { in_channels := in_channels, in_features := in_features,
        window_size := window_size, shift_size := window_size / 2,
        downscaling_factor := downscaling_factor,
        layers_regular := regs, layers_shifted := shfs,
        upper_lower_mask := upper_lower_mask window_size (window_size / 2),
        left_right_mask := left_right_mask window_size (window_size / 2) }
  else Except.error PyErr.assertionError

/-- The loop of StageModule.forward (v2); textually the v1 loop. -/
def stageLoopV2 {T : Type} (f : SwinBlockV2 → T → Option MaskPair → T) :
    List SwinBlockV2 → List SwinBlockV2 → MaskPair → T → T
  | r :: rs, sh :: ss, m, x => stageLoopV2 f rs ss m (f sh (f r x none) (some m))
  | _, _, _, x => x

/-- Shape-level semantics of StageModule.forward (v2): the v2 PatchMerging
(the v1 one followed by a LayerNorm), the block loop, then the permute. -/
def StageModuleV2.forwardShape (st : StageModuleV2) (s : Shape) : Except PyErr Shape :=
  (liftShape ((patchMergingForwardShape st.in_channels st.in_features
      st.downscaling_factor s).bind (layerNormShape st.in_features))).bind fun x0 =>
  (stageLoopV2 (fun blk t m => t.bind fun sh => blk.forwardShape sh m)
    st.layers_regular st.layers_shifted (st.upper_lower_mask, st.left_right_mask)
    (Except.ok x0)).bind fun xl =>
  liftShape (permuteShape xl [0, 3, 1, 2])

/-- The v2 SwinTransformer: four stages and a bare linear head. -/
structure SwinTransformerV2 where
  stage1 : StageModuleV2
  stage2 : StageModuleV2
  stage3 : StageModuleV2
  stage4 : StageModuleV2
  in_features : Nat
  num_classes : Nat

/-- The body of SwinTransformer.__init__ (v2). -/
noncomputable def initSwinTransformerV2 (in_channels num_classes in_features window_size : Nat)
    (heads num_layers downscaling_factors : Nat × Nat × Nat × Nat)
    (ffnFactor : Nat) : SwinTransformerV2 where
  stage1 := initStageModuleV2 in_channels in_features window_size heads.1
    ffnFactor num_layers.1 downscaling_factors.1
  stage2 := initStageModuleV2 in_features (in_features * 2) window_size heads.2.1
    ffnFactor num_layers.2.1 downscaling_factors.2.1
  stage3 := initStageModuleV2 (in_features * 2) (in_features * 4) window_size heads.2.2.1
    ffnFactor num_layers.2.2.1 downscaling_factors.2.2.1
  stage4 := initStageModuleV2 (in_features * 4) (in_features * 8) window_size heads.2.2.2
    ffnFactor num_layers.2.2.2 downscaling_factors.2.2.2
  in_features := in_features
  num_classes := num_classes

/-- Shape-level semantics of SwinTransformer.forward (v2): the four stages,
the mean over dims `[2, 3]` and the linear `mlp_head`. -/
def SwinTransformerV2.forwardShape (m : SwinTransformerV2) (s : Shape) :
    Except PyErr Shape :=
  (m.stage1.forwardShape s).bind fun s1 =>
  (m.stage2.forwardShape s1).bind fun s2 =>
  (m.stage3.forwardShape s2).bind fun s3 =>
  (m.stage4.forwardShape s3).bind fun s4 =>
  (liftShape (meanDims23 s4)).bind fun mn =>
  liftShape (linearShape (m.in_features * 8) m.num_classes mn)

/-! Stateful translations of the forward methods: a forward returns the new
module state next to its output. WindowAttention.forward (v1) contains no
assignment to a `self` attribute — the in-place `masked_fill_` acts on the
local `scores` tensor and `mask[0] == 0` allocates a fresh tensor — so its
translation returns the state unchanged; likewise for the v2 forward and for
SwinBlock, StageModule and SwinTransformer, whose bodies only call their
submodules. -/

/-- Stateful WindowAttention.forward (v1). -/
def WindowAttentionV1.forwardS (wa : WindowAttentionV1) (s : Shape)
    (mask : Option MaskPair) : WindowAttentionV1 × Option Shape :=
  (wa, wa.forwardShape s mask)

/-- Stateful SwinBlock.forward (v1): the attention state is threaded back into
the block. -/
def SwinBlockV1.forwardS (blk : SwinBlockV1) (x : Option Shape) (mask : Option MaskPair) :
    SwinBlockV1 × Option Shape :=
  let wa2 := match x.bind (layerNormShape blk.in_features) with
    | some sh => (blk.attention.forwardS sh mask).1
    | none => blk.attention
  ({ blk with attention := wa2 }, x.bind fun sh => blk.forwardShape sh mask)

/-- The stateful loop of StageModule.forward (v1): threads every block state. -/
def stageLoopS : List SwinBlockV1 → List SwinBlockV1 → MaskPair → Option Shape →
    List SwinBlockV1 × List SwinBlockV1 × Option Shape
  | r :: rs, sh :: ss, m, x =>
      let rx := r.forwardS x none
      let shx := sh.forwardS rx.2 (some m)
      let rest := stageLoopS rs ss m shx.2
      (rx.1 :: rest.1, shx.1 :: rest.2.1, rest.2.2)
  | rs, ss, _, x => (rs, ss, x)

/-- Stateful StageModule.forward (v1). -/
def StageModuleV1.forwardS (st : StageModuleV1) (s : Shape) :
    StageModuleV1 × Option Shape :=
  let x0 := patchMergingForwardShape st.in_channels st.in_features st.downscaling_factor s
  let loop := stageLoopS st.layers_regular st.layers_shifted
    (st.upper_lower_mask, st.left_right_mask) x0
  ({ st with layers_regular := loop.1, layers_shifted := loop.2.1 },
   loop.2.2.bind fun l => permuteShape l [0, 3, 1, 2])

/-- Stateful SwinTransformer.forward (v1). -/
def SwinTransformerV1.forwardS (m : SwinTransformerV1) (s : Shape) :
    SwinTransformerV1 × Option Shape :=
  let r1 := m.stage1.forwardS s
  let r2 := match r1.2 with
    | some sh => m.stage2.forwardS sh
    | none => (m.stage2, none)
  let r3 := match r2.2 with
    | some sh => m.stage3.forwardS sh
    | none => (m.stage3, none)
  let r4 := match r3.2 with
    | some sh => m.stage4.forwardS sh
    | none => (m.stage4, none)
  ({ m with stage1 := r1.1, stage2 := r2.1, stage3 := r3.1, stage4 := r4.1 },
   r4.2.bind fun s4 =>
     (meanDims23 s4).bind fun mn =>
     (layerNormShape (m.in_features * 8) mn).bind fun n1 =>
     linearShape (m.in_features * 8) m.num_classes n1)

/-- Stateful WindowAttention.forward (v2). -/
def WindowAttentionV2.forwardS (wa : WindowAttentionV2) (s : Shape)
    (mask : Option MaskPair) : WindowAttentionV2 × Except PyErr Shape :=
  (wa, wa.forwardShape s mask)

theorem rollIndex_neg_rollIndex {n : Nat} (d : Int) (i : Fin n) :
    rollIndex n (-d) (rollIndex n d i) = i := by
  have hn : (0 : Int) < (n : Int) := by exact_mod_cast i.pos
  apply Fin.ext
  show ((((rollIndex n d i : Fin n) : Int) - -d) % (n : Int)).toNat = (i : Nat)
  have hv : ((rollIndex n d i : Fin n) : Int) = ((i : Int) - d) % (n : Int) := by
    show ((((i : Int) - d) % (n : Int)).toNat : Int) = ((i : Int) - d) % (n : Int)
    exact Int.toNat_of_nonneg (Int.emod_nonneg _ (by omega))
  rw [hv, sub_neg_eq_add, Int.emod_add_emod, sub_add_cancel]
  have : (i : Int) % (n : Int) = (i : Int) := Int.emod_eq_of_lt (by positivity) (by exact_mod_cast i.isLt)
  rw [this]
  exact Int.toNat_natCast _

/-- C5: for every displacement `d` and every tensor of rank at least 3,
CyclicShift(-d) followed by CyclicShift(d) is the identity: the two
`torch.roll` calls on dims `(1, 2)` compose to the identity. In particular
the `cyclic_back_shift = CyclicShift(shift_size)` registered by
WindowAttention.__init__ exactly undoes the `cyclic_shift =
CyclicShift(-shift_size)` applied at the start of a shifted forward pass. -/
theorem cyclicShift_back_shift_id {b h w : Nat} {γ : Type} (d : Int)
    (x : Fin b → Fin h → Fin w → γ) :
    cyclicShiftForward d (cyclicShiftForward (-d) x) = x := by
  funext bi i j
  show x bi (rollIndex h (-d) (rollIndex h d i)) (rollIndex w (-d) (rollIndex w d j)) = x bi i j
  rw [rollIndex_neg_rollIndex, rollIndex_neg_rollIndex]

/-- C10: whenever `drop_prob` is 0 or the module is not in training mode,
DropPath.forward (v1 and v2 alike) returns its input unchanged. -/
theorem dropPath_identity {b : Nat} {ι : Type} (drop_prob : ℚ)
    (training scale_by_keep : Bool) (keep : Fin b → Bool) (x : Fin b → ι → ℚ)
    (h : drop_prob = 0 ∨ training = false) :
    dropPathForwardV1 drop_prob training scale_by_keep keep x = x ∧
    dropPathForwardV2 drop_prob training scale_by_keep keep x = x := by
  constructor
  · unfold dropPathForwardV1
    rw [if_pos h]
  · unfold dropPathForwardV2
    rw [if_pos h]

theorem dropPath_identity_witness :
    (dropPathForwardV1 0 true true (fun _ : Fin 1 => true) (fun _ (_ : Fin 2) => (5 : ℚ)) =
      fun _ _ => (5 : ℚ)) ∧
    (dropPathForwardV2 0 true true (fun _ : Fin 1 => true) (fun _ (_ : Fin 2) => (5 : ℚ)) =
      fun _ _ => (5 : ℚ)) :=
  dropPath_identity 0 true true _ _ (Or.inl rfl)

theorem zero_one_ite_eq_zero_iff {c : Prop} [Decidable c] :
    (if c then (0 : Nat) else 1) = 0 ↔ c := by
  split <;> simp [*]

theorem sliceLastMem_iff {n s : Nat} (h0 : 0 < s) (hsn : s ≤ n) (i : Nat) :
    sliceLastMem n s i ↔ n - s ≤ i := by
  unfold sliceLastMem pyIndex
  rw [if_pos (by omega : -(s : Int) < 0)]
  omega

theorem sliceUntilLastMem_iff {n s : Nat} (h0 : 0 < s) (hsn : s ≤ n) (i : Nat) :
    sliceUntilLastMem n s i ↔ i < n - s := by
  unfold sliceUntilLastMem pyIndex
  rw [if_pos (by omega : -(s : Int) < 0)]
  omega

theorem strideSliceMem_iff (step i : Nat) (h : 0 < step) :
    strideSliceMem (step - 1) step i ↔ i % step = step - 1 := by
  unfold strideSliceMem
  constructor
  · rintro ⟨h1, h2⟩
    obtain ⟨k, hk⟩ := Nat.dvd_of_mod_eq_zero h2
    have hik : i = step * k + (step - 1) := by omega
    rw [hik, Nat.mul_add_mod]
    exact Nat.mod_eq_of_lt (by omega)
  · intro h1
    refine ⟨by have := Nat.mod_le i step; omega, ?_⟩
    have hd := Nat.div_add_mod i step
    have : i - (step - 1) = step * (i / step) := by omega
    rw [this]
    exact Nat.mul_mod_right _ _

theorem upper_lower_mask_eq_zero_iff {w s : Nat} (hs : 0 < s) (hsw : s < w)
    {p q : Nat} (hp : p < w * w) (hq : q < w * w) :
    upper_lower_mask w s p q = 0 ↔ ((w - s ≤ p / w) ↔ ¬(w - s ≤ q / w)) := by
  have hw : 0 < w := Nat.lt_of_le_of_lt (Nat.zero_le s) hsw
  have h1 : 0 < s * w := Nat.mul_pos hs hw
  have h2 : s * w ≤ w * w := Nat.mul_le_mul_right w (Nat.le_of_lt hsw)
  have hdiv : ∀ r : Nat, (w - s ≤ r / w ↔ w * w - s * w ≤ r) := by
    intro r
    rw [Nat.le_div_iff_mul_le hw, Nat.sub_mul]
  unfold upper_lower_mask
  rw [zero_one_ite_eq_zero_iff]
  simp only [sliceLastMem_iff h1 h2, sliceUntilLastMem_iff h1 h2, hdiv]
  omega

theorem left_right_mask_eq_zero_iff {w s : Nat} (hs : 0 < s) (hsw : s < w)
    (p q : Nat) :
    left_right_mask w s p q = 0 ↔ ((w - s ≤ p % w) ↔ ¬(w - s ≤ q % w)) := by
  unfold left_right_mask left_right_mask_entry
  rw [zero_one_ite_eq_zero_iff]
  simp only [sliceLastMem_iff hs (Nat.le_of_lt hsw), sliceUntilLastMem_iff hs (Nat.le_of_lt hsw)]
  omega

/-- C2: in the v1 shifted-window attention, the `upper_lower_mask` entry for a
pair `(p, q)` of window positions is 0 exactly when one of the two positions
lies in the last `shift_size` rows of the window and the other does not; the
`left_right_mask` entry is 0 exactly when one of the two lies in the last
`shift_size` columns and the other does not; and the two `masked_fill_`
statements of WindowAttention.forward replace with `-1e9`, before the softmax,
exactly the scores of upper/lower-masked pairs in the last row of windows and
of left/right-masked pairs in the last column of windows (position `p` has
row `p / w` and column `p % w`; window `wi` is in the last row of the
`nw_h x nw_w` grid iff `nw_h * nw_w - nw_w ≤ wi` and in the last column iff
`wi % nw_w = nw_w - 1`). -/
theorem shifted_window_mask_spec (w s nw_h nw_w wi p q : Nat)
    (hs : 0 < s) (hsw : s < w) (hp : p < w * w) (hq : q < w * w)
    (hwi : wi < nw_h * nw_w) (hnw : 0 < nw_w) (scores : Nat → Nat → Nat → ℚ) :
    (upper_lower_mask w s p q = 0 ↔ ((w - s ≤ p / w) ↔ ¬(w - s ≤ q / w))) ∧
    (left_right_mask w s p q = 0 ↔ ((w - s ≤ p % w) ↔ ¬(w - s ≤ q % w))) ∧
    windowMaskedScores nw_h nw_w w s scores wi p q =
      (if (nw_h * nw_w - nw_w ≤ wi ∧ upper_lower_mask w s p q = 0) ∨
          (wi % nw_w = nw_w - 1 ∧ left_right_mask w s p q = 0)
       then -1000000000 else scores wi p q) := by
  refine ⟨upper_lower_mask_eq_zero_iff hs hsw hp hq,
          left_right_mask_eq_zero_iff hs hsw p q, ?_⟩
  have hh : 0 < nw_h := by
    rcases Nat.eq_zero_or_pos nw_h with h0 | h0
    · rw [h0] at hwi; omega
    · exact h0
  have hrow : sliceLastMem (nw_h * nw_w) nw_w wi ↔ nw_h * nw_w - nw_w ≤ wi :=
    sliceLastMem_iff hnw (Nat.le_mul_of_pos_left nw_w hh) wi
  have hcol : strideSliceMem (nw_w - 1) nw_w wi ↔ wi % nw_w = nw_w - 1 :=
    strideSliceMem_iff nw_w wi hnw
  unfold windowMaskedScores maskedFillLeftRight maskedFillUpperLower
  by_cases hu : nw_h * nw_w - nw_w ≤ wi ∧ upper_lower_mask w s p q = 0 <;>
    by_cases hl : wi % nw_w = nw_w - 1 ∧ left_right_mask w s p q = 0 <;>
      simp [hrow, hcol, hu, hl]

theorem shifted_window_mask_spec_witness :
    upper_lower_mask 3 1 6 0 = 0 ∧
    windowMaskedScores 2 2 3 1 (fun _ _ _ => 0) 3 6 0 = -1000000000 := by
  have h := shifted_window_mask_spec 3 1 2 2 3 6 0 (by decide) (by decide)
    (by decide) (by decide) (by decide) (by decide) (fun _ _ _ => 0)
  refine ⟨h.1.mpr (by decide), ?_⟩
  rw [h.2.2]
  norm_num [upper_lower_mask, sliceLastMem, sliceUntilLastMem, pyIndex]

theorem range_flatMap_map_length {α : Type} (w : Nat) (g : Nat → Nat → α) (n : Nat) :
    ((List.range n).flatMap fun i => (List.range w).map fun j => g i j).length = n * w := by
  induction n with
  | zero => simp
  | succ n ih =>
    rw [List.range_succ, List.flatMap_append, List.length_append, ih]
    simp [Nat.succ_mul]

theorem range_flatMap_map_getD {α : Type} (w : Nat) (g : Nat → Nat → α) (d : α) :
    ∀ n k, k < n * w →
      ((List.range n).flatMap fun i => (List.range w).map fun j => g i j).getD k d =
        g (k / w) (k % w) := by
  intro n
  induction n with
  | zero => intro k hk; omega
  | succ n ih =>
    intro k hk
    rw [List.range_succ, List.flatMap_append]
    by_cases h : k < n * w
    · rw [List.getD_append _ _ _ _ (by rw [range_flatMap_map_length]; exact h)]
      exact ih k h
    · have hlen : ((List.range n).flatMap fun i => (List.range w).map fun j => g i j).length = n * w :=
        range_flatMap_map_length w g n
      have hge : n * w ≤ k := Nat.le_of_not_lt h
      have hlt : k - n * w < w := by
        have : k < n * w + w := by
          have := hk
          rw [Nat.succ_mul] at this
          exact this
        omega
      rw [List.getD_append_right _ _ _ _ (by rw [hlen]; exact hge)]
      rw [hlen]
      have : ((List.range w).map fun j => g n j).getD (k - n * w) d = g n (k - n * w) := by
        rw [List.getD_eq_getElem _ _ (by simpa using hlt)]
        simp
      simp only [List.flatMap_cons, List.flatMap_nil, List.append_nil]
      rw [this]
      have hdiv : k / w = n := Nat.div_eq_of_lt_le hge hk
      have hmod : k % w = k - n * w := by
        have hdm := Nat.div_add_mod k w
        rw [hdiv, Nat.mul_comm] at hdm
        omega
      rw [hdiv, hmod]

theorem indicesList_getD (w k : Nat) (hk : k < w * w) :
    (indicesList w).getD k (0, 0) = (((k / w : Nat) : Int), ((k % w : Nat) : Int)) := by
  unfold indicesList
  exact range_flatMap_map_getD w (fun i j => ((i : Int), (j : Int))) (0, 0) w k hk

theorem tensorIndex_inj {w : Nat} (hw : 0 < w) {d e : Int}
    (hd1 : -((w : Int) - 1) ≤ d) (hd2 : d ≤ (w : Int) - 1)
    (he1 : -((w : Int) - 1) ≤ e) (he2 : e ≤ (w : Int) - 1)
    (h : tensorIndex (2 * w - 1) d = tensorIndex (2 * w - 1) e) : d = e := by
  unfold tensorIndex pyIndex at h
  split_ifs at h <;> omega

theorem relative_indices_eq (w p q : Nat) (hp : p < w * w) (hq : q < w * w) :
    relative_indices w p q =
      (((q / w : Nat) : Int) - ((p / w : Nat) : Int),
       ((q % w : Nat) : Int) - ((p % w : Nat) : Int)) := by
  unfold relative_indices
  rw [indicesList_getD w q hq, indicesList_getD w p hp, Prod.mk_sub_mk]

theorem int_sub_bounds {w a b : Nat} (ha : a < w) (hb : b < w) :
    -((w : Int) - 1) ≤ (b : Int) - (a : Int) ∧ (b : Int) - (a : Int) ≤ (w : Int) - 1 := by
  omega

theorem relative_indices_bounds (w p q : Nat) (hw : 0 < w)
    (hp : p < w * w) (hq : q < w * w) :
    -((w : Int) - 1) ≤ (relative_indices w p q).1 ∧
    (relative_indices w p q).1 ≤ (w : Int) - 1 ∧
    -((w : Int) - 1) ≤ (relative_indices w p q).2 ∧
    (relative_indices w p q).2 ≤ (w : Int) - 1 := by
  rw [relative_indices_eq w p q hp hq]
  have h1 : p / w < w := (Nat.div_lt_iff_lt_mul hw).mpr hp
  have h2 : q / w < w := (Nat.div_lt_iff_lt_mul hw).mpr hq
  have h3 : p % w < w := Nat.mod_lt _ hw
  have h4 : q % w < w := Nat.mod_lt _ hw
  obtain ⟨l1, r1⟩ := int_sub_bounds h1 h2
  obtain ⟨l2, r2⟩ := int_sub_bounds h3 h4
  exact ⟨l1, r1, l2, r2⟩

/-- C3: in the v1 WindowAttention the bias added to the attention score of a
pair `(p, q)` is a function of their 2-D relative offset only:
`relative_indices[p][q]` is the coordinate pair of `q` minus that of `p`
(position `k` has coordinates `(k / w, k % w)`), each component lies in
`[-(w - 1), w - 1]`, two pairs with the same offset read the same cell of the
`(2w - 1) x (2w - 1)` `pos_embedding` table (so receive the same bias from
any table `pe`), and pairs with distinct offsets read distinct cells (a
negative offset component indexes the table from its end). -/
theorem relative_position_bias_spec (w p q : Nat) (hw : 0 < w)
    (hp : p < w * w) (hq : q < w * w) :
    relative_indices w p q =
      (((q / w : Nat) : Int) - ((p / w : Nat) : Int),
       ((q % w : Nat) : Int) - ((p % w : Nat) : Int)) ∧
    (-((w : Int) - 1) ≤ (relative_indices w p q).1 ∧
     (relative_indices w p q).1 ≤ (w : Int) - 1 ∧
     -((w : Int) - 1) ≤ (relative_indices w p q).2 ∧
     (relative_indices w p q).2 ≤ (w : Int) - 1) ∧
    (∀ p2 q2, p2 < w * w → q2 < w * w →
      (relative_indices w p q = relative_indices w p2 q2 →
        ∀ pe : Nat → Nat → ℚ,
          posEmbeddingLookup w pe p q = posEmbeddingLookup w pe p2 q2) ∧
      (posEmbeddingCell w p q = posEmbeddingCell w p2 q2 →
        relative_indices w p q = relative_indices w p2 q2)) := by
  refine ⟨relative_indices_eq w p q hp hq, relative_indices_bounds w p q hw hp hq, ?_⟩
  intro p2 q2 hp2 hq2
  constructor
  · intro hrel pe
    unfold posEmbeddingLookup posEmbeddingCell
    rw [hrel]
  · intro hcell
    have b1 := relative_indices_bounds w p q hw hp hq
    have b2 := relative_indices_bounds w p2 q2 hw hp2 hq2
    unfold posEmbeddingCell at hcell
    have hc1 := congrArg Prod.fst hcell
    have hc2 := congrArg Prod.snd hcell
    simp only at hc1 hc2
    have e1 := tensorIndex_inj hw b1.1 b1.2.1 b2.1 b2.2.1 hc1
    have e2 := tensorIndex_inj hw b1.2.2.1 b1.2.2.2 b2.2.2.1 b2.2.2.2 hc2
    exact Prod.ext e1 e2

theorem relative_position_bias_spec_witness :
    relative_indices 3 1 5 = ((1 : Int), (1 : Int)) ∧
    posEmbeddingCell 3 5 1 = (4, 4) := by
  have h := relative_position_bias_spec 3 1 5 (by decide) (by decide) (by decide)
  constructor
  · rw [h.1]; decide
  · decide

theorem signLog_neg (d : Int) : signLog (-d) = -signLog d := by
  unfold signLog
  rw [Int.sign_neg]
  push_cast
  rw [abs_neg]
  ring

theorem relative_distances_antisymm (w p q : Nat) :
    relative_distances w q p = -(relative_distances w p q) := by
  unfold relative_distances
  exact (neg_sub _ _).symm

/-- C4: the v2 buffer `relative_distances_log` is, entrywise, the log-spaced
transform `sign(D) * log(1 + |D|)` of the componentwise linear offset
`D = coordinates(q) - coordinates(p)` (position `k` has coordinates
`(k / w, k % w)`); consequently it is antisymmetric in `p` and `q` and its
diagonal entries are zero. -/
theorem log_space_coordinates_spec (w p q : Nat) (hw : 0 < w)
    (hp : p < w * w) (hq : q < w * w) :
    relative_distances w p q =
      (((q / w : Nat) : Int) - ((p / w : Nat) : Int),
       ((q % w : Nat) : Int) - ((p % w : Nat) : Int)) ∧
    relative_distances_log w p q =
      (signLog (relative_distances w p q).1, signLog (relative_distances w p q).2) ∧
    (∀ d : Int, signLog d = (d.sign : ℝ) * Real.log (1 + |(d : ℝ)|)) ∧
    (relative_distances_log w p q).1 = -((relative_distances_log w q p).1) ∧
    (relative_distances_log w p q).2 = -((relative_distances_log w q p).2) ∧
    relative_distances_log w p p = (0, 0) := by
  have hanti := relative_distances_antisymm w p q
  refine ⟨?_, rfl, ?_, ?_, ?_, ?_⟩
  · unfold relative_distances
    rw [indicesList_getD w q hq, indicesList_getD w p hp, Prod.mk_sub_mk]
  · intro d
    unfold signLog
    rw [add_comm]
  · unfold relative_distances_log
    rw [hanti, Prod.fst_neg, signLog_neg, neg_neg]
  · unfold relative_distances_log
    rw [hanti, Prod.snd_neg, signLog_neg, neg_neg]
  · have hz : relative_distances w p p = 0 := by
      unfold relative_distances
      exact sub_self _
    unfold relative_distances_log
    rw [hz]
    show (signLog 0, signLog 0) = (0, 0)
    simp [signLog]

theorem log_space_coordinates_spec_witness :
    relative_distances_log 2 1 1 = (0, 0) :=
  (log_space_coordinates_spec 2 1 1 (by decide) (by decide) (by decide)).2.2.2.2.2

/-- C9: in the v2 implementation, SwinBlock.forward hands its `mask` argument
to `norm1` instead of the attention call, so the attention always receives
`None`: the result does not depend on the mask at all (in particular the
masks StageModule.forward supplies to its shifted blocks never reach the
attention-score computation), the attention value is computed from
`attn x none`, and the extra positional argument to LayerNorm then raises a
TypeError. Stated both for an arbitrary embedded attention `attn` and for the
shape-level SwinBlockV2. -/
theorem v2_block_mask_bypass {T M : Type} (attn : T → Option M → Except PyErr T)
    (x : T) (mask mask2 : Option M) (blk : SwinBlockV2) (s : Shape)
    (bm bm2 : Option MaskPair) :
    swinBlockForwardV2Calls attn x mask =
      (attn x none).bind (fun _a => Except.error PyErr.typeError) ∧
    swinBlockForwardV2Calls attn x mask = swinBlockForwardV2Calls attn x mask2 ∧
    blk.forwardShape s bm =
      (blk.attention.forwardShape s none).bind (fun _a => Except.error PyErr.typeError) ∧
    blk.forwardShape s bm = blk.forwardShape s bm2 :=
  ⟨rfl, rfl, rfl, rfl⟩

theorem constructList_ok {α : Type} (a : α) :
    ∀ n, constructList (Except.ok a) n = Except.ok (List.replicate n a) := by
  intro n
  induction n with
  | zero => rfl
  | succ n ih =>
    show Except.bind (Except.ok a) _ = _
    rw [List.replicate_succ]
    show (constructList (Except.ok a) n).bind _ = _
    rw [ih]
    rfl

theorem constructList_err {α : Type} (e : PyErr) (n : Nat) (hn : n ≠ 0) :
    constructList (Except.error e : Except PyErr α) n = Except.error e := by
  cases n with
  | zero => exact absurd rfl hn
  | succ k => rfl

/-- C8 (amended): the only errors raised by code the repository itself defines
are the constructor `assert` statements: the v1 and v2 WindowAttention
constructors succeed exactly when `in_features` is divisible by
`number_of_heads`; the v1 and v2 StageModule constructors succeed exactly
when `layers` is even and, if at least one block is constructed
(`layers // 2 > 0`), `in_features` is divisible by `number_of_heads` (with
`layers = 0` the `range(0)` comprehensions build no blocks, so the block
assert never runs); and the ViT MultiHeadAttention constructor succeeds
exactly when `d_model` is divisible by `h`. Each raises AssertionError
otherwise. -/
theorem constructor_assertions_spec (in_features window_size number_of_heads shift_size
    ffnFactor layers downscaling_factor in_channels h d_model : Nat) :
    ((∃ wa, newWindowAttentionV1 in_features window_size number_of_heads shift_size =
        Except.ok wa) ↔ in_features % number_of_heads = 0) ∧
    ((∃ st, newStageModuleV1 in_channels in_features window_size number_of_heads
        ffnFactor layers downscaling_factor = Except.ok st) ↔
      layers % 2 = 0 ∧ (layers / 2 = 0 ∨ in_features % number_of_heads = 0)) ∧
    ((∃ wa, newWindowAttentionV2 in_features window_size number_of_heads shift_size =
        Except.ok wa) ↔ in_features % number_of_heads = 0) ∧
    ((∃ st, newStageModuleV2 in_channels in_features window_size number_of_heads
        ffnFactor layers downscaling_factor = Except.ok st) ↔
      layers % 2 = 0 ∧ (layers / 2 = 0 ∨ in_features % number_of_heads = 0)) ∧
    ((∃ mh, newMultiHeadAttention h d_model = Except.ok mh) ↔ d_model % h = 0) := by
  refine ⟨?_, ?_, ?_, ?_, ?_⟩
  · unfold newWindowAttentionV1
    by_cases hc : in_features % number_of_heads = 0 <;> simp [hc]
  · unfold newStageModuleV1
    by_cases hc1 : layers % 2 = 0
    · rw [if_pos hc1]
      by_cases hc0 : layers / 2 = 0
      · apply iff_of_true
        · rw [hc0]
          exact ⟨_, rfl⟩
        · exact ⟨hc1, Or.inl hc0⟩
      · by_cases hc2 : in_features % number_of_heads = 0
        · have hblkok : ∀ ss, newSwinBlockV1 in_features window_size number_of_heads ss
              ffnFactor = Except.ok
                (initSwinBlockV1 in_features window_size number_of_heads ss ffnFactor) := by
            intro ss
            unfold newSwinBlockV1 newWindowAttentionV1
            rw [if_pos hc2]
            rfl
          apply iff_of_true
          · rw [hblkok, hblkok, constructList_ok, constructList_ok]
            exact ⟨_, rfl⟩
          · exact ⟨hc1, Or.inr hc2⟩
        · have hblkerr : newSwinBlockV1 in_features window_size number_of_heads 0
              ffnFactor = (Except.error PyErr.assertionError : Except PyErr SwinBlockV1) := by
            unfold newSwinBlockV1 newWindowAttentionV1
            rw [if_neg hc2]
            rfl
          apply iff_of_false
          · rw [hblkerr, constructList_err PyErr.assertionError _ hc0]
            rintro ⟨st, hst⟩
            exact Except.noConfusion hst
          · rintro ⟨h1, h2⟩
            exact h2.elim hc0 hc2
    · rw [if_neg hc1]
      apply iff_of_false
      · rintro ⟨st, hst⟩
        exact Except.noConfusion hst
      · rintro ⟨h1, h2⟩
        exact hc1 h1
  · unfold newWindowAttentionV2
    by_cases hc : in_features % number_of_heads = 0 <;> simp [hc]
  · unfold newStageModuleV2
    by_cases hc1 : layers % 2 = 0
    · rw [if_pos hc1]
      by_cases hc0 : layers / 2 = 0
      · apply iff_of_true
        · rw [hc0]
          exact ⟨_, rfl⟩
        · exact ⟨hc1, Or.inl hc0⟩
      · by_cases hc2 : in_features % number_of_heads = 0
        · have hblkok : ∀ ss, newSwinBlockV2 in_features window_size number_of_heads ss
              ffnFactor = Except.ok
                (initSwinBlockV2 in_features window_size number_of_heads ss ffnFactor) := by
            intro ss
            unfold newSwinBlockV2 newWindowAttentionV2
            rw [if_pos hc2]
            rfl
          apply iff_of_true
          · rw [hblkok, hblkok, constructList_ok, constructList_ok]
            exact ⟨_, rfl⟩
          · exact ⟨hc1, Or.inr hc2⟩
        · have hblkerr : newSwinBlockV2 in_features window_size number_of_heads 0
              ffnFactor = (Except.error PyErr.assertionError : Except PyErr SwinBlockV2) := by
            unfold newSwinBlockV2 newWindowAttentionV2
            rw [if_neg hc2]
            rfl
          apply iff_of_false
          · rw [hblkerr, constructList_err PyErr.assertionError _ hc0]
            rintro ⟨st, hst⟩
            exact Except.noConfusion hst
          · rintro ⟨h1, h2⟩
            exact h2.elim hc0 hc2
    · rw [if_neg hc1]
      apply iff_of_false
      · rintro ⟨st, hst⟩
        exact Except.noConfusion hst
      · rintro ⟨h1, h2⟩
        exact hc1 h1
  · unfold newMultiHeadAttention
    by_cases hc : d_model % h = 0 <;> simp [hc]

theorem constructor_assertion_counterexample :
    newWindowAttentionV1 3 7 2 0 = Except.error PyErr.assertionError := rfl

theorem stageLoopV1_replicate {T : Type} (f : SwinBlockV1 → T → Option MaskPair → T)
    (r sh : SwinBlockV1) (m : MaskPair) :
    ∀ (n : Nat) (x : T),
      stageLoopV1 f (List.replicate n r) (List.replicate n sh) m x =
        (fun y => f sh (f r y none) (some m))^[n] x := by
  intro n
  induction n with
  | zero => intro x; rfl
  | succ n ih =>
    intro x
    rw [List.replicate_succ, List.replicate_succ]
    show stageLoopV1 f (r :: List.replicate n r) (sh :: List.replicate n sh) m x = _
    rw [stageLoopV1, ih, Function.iterate_succ_apply]

/-- C6: a StageModule with an even layer count `layers` holds `layers / 2`
regular blocks (shift 0) and `layers / 2` shifted blocks (shift
`window_size // 2`), and its forward loop applies, after patch merging,
exactly `layers / 2` pairs in the fixed order regular-then-shifted, handing
the mask buffers only to the shifted block of each pair — for any block
semantics `f`. -/
theorem stage_alternation_spec {T : Type} (in_channels in_features window_size
    number_of_heads ffnFactor layers downscaling_factor : Nat)
    (hL : layers % 2 = 0) (f : SwinBlockV1 → T → Option MaskPair → T) (x : T)
    (st : StageModuleV1)
    (hst : st = initStageModuleV1 in_channels in_features window_size number_of_heads
      ffnFactor layers downscaling_factor) :
    st.layers_regular.length = layers / 2 ∧
    st.layers_shifted.length = layers / 2 ∧
    (∀ blk ∈ st.layers_regular, blk.shift_size = 0) ∧
    (∀ blk ∈ st.layers_shifted, blk.shift_size = window_size / 2) ∧
    stageLoopV1 f st.layers_regular st.layers_shifted
        (st.upper_lower_mask, st.left_right_mask) x =
      (fun y => f (initSwinBlockV1 in_features window_size number_of_heads
            (window_size / 2) ffnFactor)
          (f (initSwinBlockV1 in_features window_size number_of_heads 0 ffnFactor) y none)
          (some (upper_lower_mask window_size (window_size / 2),
                 left_right_mask window_size (window_size / 2))))^[layers / 2] x := by
  subst hst
  refine ⟨by simp [initStageModuleV1], by simp [initStageModuleV1], ?_, ?_, ?_⟩
  · intro blk hmem
    rw [List.eq_of_mem_replicate hmem]
    rfl
  · intro blk hmem
    rw [List.eq_of_mem_replicate hmem]
    rfl
  · exact stageLoopV1_replicate f _ _ _ (layers / 2) x

theorem stage_alternation_spec_witness :
    (initStageModuleV1 1 4 3 2 4 2 1).layers_regular.length = 2 / 2 :=
  (stage_alternation_spec (T := Nat) 1 4 3 2 4 2 1 (by decide) (fun _ n _ => n) 0 _ rfl).1

theorem windowAttentionV1_forwardS_state (wa : WindowAttentionV1) (s : Shape)
    (mask : Option MaskPair) : (wa.forwardS s mask).1 = wa := rfl

theorem swinBlockV1_forwardS_state (blk : SwinBlockV1) (x : Option Shape)
    (mask : Option MaskPair) : (blk.forwardS x mask).1 = blk := by
  unfold SwinBlockV1.forwardS
  rcases hx : x.bind (layerNormShape blk.in_features) with _ | sh <;>
    simp [WindowAttentionV1.forwardS, hx]

theorem stageLoopS_states : ∀ (rs ss : List SwinBlockV1) (m : MaskPair) (x : Option Shape),
    (stageLoopS rs ss m x).1 = rs ∧ (stageLoopS rs ss m x).2.1 = ss := by
  intro rs
  induction rs with
  | nil => intro ss m x; constructor <;> rfl
  | cons r rs ih =>
    intro ss m x
    cases ss with
    | nil => constructor <;> rfl
    | cons sh ss =>
      rw [stageLoopS]
      refine ⟨?_, ?_⟩ <;>
        simp [swinBlockV1_forwardS_state, (ih ss m _).1, (ih ss m _).2]

theorem stageModuleV1_forwardS_state (st : StageModuleV1) (s : Shape) :
    (st.forwardS s).1 = st := by
  unfold StageModuleV1.forwardS
  have h := stageLoopS_states st.layers_regular st.layers_shifted
    (st.upper_lower_mask, st.left_right_mask)
    (patchMergingForwardShape st.in_channels st.in_features st.downscaling_factor s)
  simp [h.1, h.2]

theorem stageStep_state (st : StageModuleV1) (o : Option Shape) :
    (match o with
      | some sh => st.forwardS sh
      | none => (st, none)).1 = st := by
  cases o <;> simp [stageModuleV1_forwardS_state]

theorem swinTransformerV1_forwardS_state (m : SwinTransformerV1) (s : Shape) :
    (m.forwardS s).1 = m := by
  unfold SwinTransformerV1.forwardS
  simp only [stageModuleV1_forwardS_state, stageStep_state]

theorem foldl_fixed {α β : Type} (g : α → β → α) (a : α) (hg : ∀ b, g a b = a) :
    ∀ xs : List β, xs.foldl g a = a := by
  intro xs
  induction xs with
  | nil => rfl
  | cons x xs ih => rw [List.foldl_cons, hg x]; exact ih

/-- C7: the non-learned buffers (`relative_indices` of the v1 WindowAttention,
`relative_distances_log` of the v2 WindowAttention, `upper_lower_mask` and
`left_right_mask` of StageModule) are fixed at construction from
`window_size` and `shift_size = window_size // 2`, and no sequence of forward
passes of WindowAttention, SwinBlock, StageModule or SwinTransformer changes
the module state: after folding any list of inputs through the stateful
forwards, every module equals its construction-time value. -/
theorem buffers_never_mutated (in_channels num_classes in_features window_size
    number_of_heads ffnFactor layers downscaling_factor : Nat)
    (heads num_layers dfs : Nat × Nat × Nat × Nat) (xs : List Shape) :
    (xs.foldl (fun (wa : WindowAttentionV1) x => (wa.forwardS x none).1)
        (initWindowAttentionV1 in_features window_size number_of_heads 0) =
      initWindowAttentionV1 in_features window_size number_of_heads 0) ∧
    ((initWindowAttentionV1 in_features window_size number_of_heads 0).relative_indices =
      relative_indices window_size) ∧
    (xs.foldl (fun (blk : SwinBlockV1) x => (blk.forwardS (some x) none).1)
        (initSwinBlockV1 in_features window_size number_of_heads 0 ffnFactor) =
      initSwinBlockV1 in_features window_size number_of_heads 0 ffnFactor) ∧
    (xs.foldl (fun (st : StageModuleV1) x => (st.forwardS x).1)
        (initStageModuleV1 in_channels in_features window_size number_of_heads
          ffnFactor layers downscaling_factor) =
      initStageModuleV1 in_channels in_features window_size number_of_heads
        ffnFactor layers downscaling_factor) ∧
    ((initStageModuleV1 in_channels in_features window_size number_of_heads
        ffnFactor layers downscaling_factor).upper_lower_mask =
      upper_lower_mask window_size (window_size / 2)) ∧
    ((initStageModuleV1 in_channels in_features window_size number_of_heads
        ffnFactor layers downscaling_factor).left_right_mask =
      left_right_mask window_size (window_size / 2)) ∧
    (∀ blk ∈ (initStageModuleV1 in_channels in_features window_size number_of_heads
          ffnFactor layers downscaling_factor).layers_regular ++
        (initStageModuleV1 in_channels in_features window_size number_of_heads
          ffnFactor layers downscaling_factor).layers_shifted,
      blk.attention.relative_indices = relative_indices window_size) ∧
    (xs.foldl (fun (mm : SwinTransformerV1) x => (mm.forwardS x).1)
        (initSwinTransformerV1 in_channels num_classes in_features window_size
          heads num_layers dfs ffnFactor) =
      initSwinTransformerV1 in_channels num_classes in_features window_size
        heads num_layers dfs ffnFactor) ∧
    (xs.foldl (fun (wa : WindowAttentionV2) x => (wa.forwardS x none).1)
        (initWindowAttentionV2 in_features window_size number_of_heads 0) =
      initWindowAttentionV2 in_features window_size number_of_heads 0) ∧
    ((initWindowAttentionV2 in_features window_size number_of_heads 0).relative_distances_log =
      relative_distances_log window_size) := by
  refine ⟨foldl_fixed _ _ (fun b => rfl) xs, rfl,
          foldl_fixed _ _ (fun b => swinBlockV1_forwardS_state _ _ _) xs,
          foldl_fixed _ _ (fun b => stageModuleV1_forwardS_state _ _) xs,
          rfl, rfl, ?_,
          foldl_fixed _ _ (fun b => swinTransformerV1_forwardS_state _ _) xs,
          foldl_fixed _ _ (fun b => rfl) xs, rfl⟩
  intro blk hmem
  rcases List.mem_append.mp hmem with hm | hm <;>
    rw [List.eq_of_mem_replicate hm] <;> rfl

theorem broadcastRev_self : ∀ l : List Nat, broadcastRev l l = some l := by
  intro l
  induction l with
  | nil => rfl
  | cons x xs ih => simp [broadcastRev, ih]

theorem broadcastRev_cons_one (x : Nat) (xs ys : List Nat) :
    broadcastRev (x :: xs) (1 :: ys) =
      (broadcastRev xs ys).map fun rest => x :: rest := by
  by_cases h : x = 1 <;> simp [broadcastRev, h, Option.map_eq_bind]

theorem windowAttentionV1_forwardShape_eval
    (heads dk ws ss nh nw b : Nat) (relbuf : Nat → Nat → Int × Int)
    (hws : 0 < ws) (hheads : 0 < heads) (hdk : 0 < dk) (hb : 0 < b)
    (hnh : 0 < nh) (hnw : 0 < nw) (mask : Option MaskPair)
    (hmask : ss = 0 ∨ mask.isSome = true) :
    WindowAttentionV1.forwardShape
      { in_features := heads * dk, window_size := ws, number_of_heads := heads,
        shift_size := ss, d_k := dk, relative_indices := relbuf }
      [b, ws * nh, ws * nw, heads * dk] mask
    = some [b, ws * nh, ws * nw, heads * dk] := by
  have hdiv1 : ws * nh / ws = nh := Nat.mul_div_cancel_left nh hws
  have hdiv2 : ws * nw / ws = nw := Nat.mul_div_cancel_left nw hws
  have l1 : linearShape (heads * dk) (heads * dk) [b, ws * nh, ws * nw, heads * dk] =
      some [b, ws * nh, ws * nw, heads * dk] := by
    simp [linearShape]
  have v1 : viewShape [b, ws * nh, ws * nw, heads * dk]
      [b, nh, ws, nw, ws, heads, dk] = some [b, nh, ws, nw, ws, heads, dk] := by
    unfold viewShape
    rw [if_pos (by unfold numel; simp only [List.prod_cons, List.prod_nil]; ring)]
  have p1 : permuteShape [b, nh, ws, nw, ws, heads, dk] [0, 5, 1, 3, 2, 4, 6] =
      some [b, heads, nh, nw, ws, ws, dk] := by
    unfold permuteShape
    rw [if_pos ⟨rfl, by decide, by intro i hi; simp at hi ⊢; omega⟩]
    rfl
  have v2 : viewShape [b, heads, nh, nw, ws, ws, dk]
      [b, heads, nh * nw, ws * ws, dk] = some [b, heads, nh * nw, ws * ws, dk] := by
    unfold viewShape
    rw [if_pos (by unfold numel; simp only [List.prod_cons, List.prod_nil]; ring)]
  have t1 : transposeLast2 [b, heads, nh * nw, ws * ws, dk] =
      some [b, heads, nh * nw, dk, ws * ws] := rfl
  have m1 : matmulShape [b, heads, nh * nw, ws * ws, dk]
      [b, heads, nh * nw, dk, ws * ws] = some [b, heads, nh * nw, ws * ws, ws * ws] := by
    simp [matmulShape, broadcastRev_self]
  have b1 : broadcastShape [b, heads, nh * nw, ws * ws, ws * ws]
      [heads, 1, ws * ws, ws * ws] = some [b, heads, nh * nw, ws * ws, ws * ws] := by
    by_cases hnn : nh * nw = 1 <;> simp [broadcastShape, broadcastRev, hnn]
  have m2 : matmulShape [b, heads, nh * nw, ws * ws, ws * ws]
      [b, heads, nh * nw, ws * ws, dk] = some [b, heads, nh * nw, ws * ws, dk] := by
    simp [matmulShape, broadcastRev_self]
  have v3 : viewShape [b, heads, nh * nw, ws * ws, dk]
      [b, heads, nh, nw, ws, ws, dk] = some [b, heads, nh, nw, ws, ws, dk] := by
    unfold viewShape
    rw [if_pos (by unfold numel; simp only [List.prod_cons, List.prod_nil]; ring)]
  have p2 : permuteShape [b, heads, nh, nw, ws, ws, dk] [0, 2, 4, 3, 5, 1, 6] =
      some [b, nh, ws, nw, ws, heads, dk] := by
    unfold permuteShape
    rw [if_pos ⟨rfl, by decide, by intro i hi; simp at hi ⊢; omega⟩]
    rfl
  have hrest : numel [b, ws * nh, ws * nw] * numel ([] : Shape) =
      b * (ws * nh) * (ws * nw) := by
    unfold numel
    simp only [List.prod_cons, List.prod_nil]
    ring
  have hrpos : 0 < b * (ws * nh) * (ws * nw) := by positivity
  have hprod : numel [b, nh, ws, nw, ws, heads, dk] =
      b * (ws * nh) * (ws * nw) * (heads * dk) := by
    unfold numel
    simp only [List.prod_cons, List.prod_nil]
    ring
  have vi : viewInferShape [b, nh, ws, nw, ws, heads, dk] [b, ws * nh, ws * nw] [] =
      some [b, ws * nh, ws * nw, heads * dk] := by
    unfold viewInferShape
    rw [hrest, hprod]
    rw [if_pos ⟨hrpos, ⟨heads * dk, by ring⟩⟩]
    rw [Nat.mul_div_cancel_left _ hrpos]
    rfl
  have chain : ∀ sc2ok : Option Shape,
      sc2ok = some [b, heads, nh * nw, ws * ws, ws * ws] →
      (sc2ok.bind fun sc2 =>
        (matmulShape sc2 [b, heads, nh * nw, ws * ws, dk]).bind fun x1 =>
        (viewShape x1 [b, heads, nh, nw, ws, ws, dk]).bind fun x2 =>
        (permuteShape x2 [0, 2, 4, 3, 5, 1, 6]).bind fun x3 =>
        (viewInferShape x3 [b, ws * nh, ws * nw] []).bind fun x4 =>
        linearShape (heads * dk) (heads * dk) x4)
      = some [b, ws * nh, ws * nw, heads * dk] := by
    intro sc2ok hsc
    rw [hsc, Option.some_bind, m2, Option.some_bind, v3, Option.some_bind,
      p2, Option.some_bind, vi, Option.some_bind, l1]
  unfold WindowAttentionV1.forwardShape
  simp only [hdiv1, hdiv2]
  rw [l1, Option.some_bind, v1, Option.some_bind, p1, Option.some_bind,
    v2, Option.some_bind, t1, Option.some_bind, m1, Option.some_bind,
    b1, Option.some_bind]
  rcases hmask with rfl | hm
  · exact chain _ rfl
  · rw [Option.isSome_iff_exists] at hm
    obtain ⟨mp, rfl⟩ := hm
    cases ss
    · exact chain _ rfl
    · exact chain _ rfl

theorem swinBlockV1_forwardShape_eval
    (heads dk ws ss nh nw b ffn : Nat) (relbuf : Nat → Nat → Int × Int)
    (hws : 0 < ws) (hheads : 0 < heads) (hdk : 0 < dk) (hb : 0 < b)
    (hnh : 0 < nh) (hnw : 0 < nw) (mask : Option MaskPair)
    (hmask : ss = 0 ∨ mask.isSome = true) :
    SwinBlockV1.forwardShape
      { in_features := heads * dk, window_size := ws, number_of_heads := heads,
        shift_size := ss, ffnFactor := ffn,
        attention :=
          { in_features := heads * dk, window_size := ws,
            number_of_heads := heads, shift_size := ss, d_k := dk,
            relative_indices := relbuf } }
      [b, ws * nh, ws * nw, heads * dk] mask
    = some [b, ws * nh, ws * nw, heads * dk] := by
  have hln : layerNormShape (heads * dk) [b, ws * nh, ws * nw, heads * dk] =
      some [b, ws * nh, ws * nw, heads * dk] := by simp [layerNormShape]
  have hbc : broadcastShape [b, ws * nh, ws * nw, heads * dk]
      [b, ws * nh, ws * nw, heads * dk] = some [b, ws * nh, ws * nw, heads * dk] := by
    simp [broadcastShape, broadcastRev_self]
  have hff : feedForwardShape (heads * dk) (heads * dk * ffn) (heads * dk)
      [b, ws * nh, ws * nw, heads * dk] = some [b, ws * nh, ws * nw, heads * dk] := by
    simp [feedForwardShape, linearShape]
  unfold SwinBlockV1.forwardShape
  dsimp only
  rw [hln, Option.some_bind,
    windowAttentionV1_forwardShape_eval heads dk ws ss nh nw b relbuf hws hheads hdk hb
      hnh hnw mask hmask, Option.some_bind, hbc, Option.some_bind, hln,
    Option.some_bind, hff, Option.some_bind, hbc]

theorem unfold_window_count (d : Nat) (hd : 0 < d) :
    ∀ m : Nat, 0 < m → (d * m - d) / d + 1 = m := by
  intro m hm
  cases m with
  | zero => exact absurd hm (by omega)
  | succ k =>
    have h1 : d * (k + 1) - d = d * k := by
      rw [Nat.mul_succ]
      omega
    rw [h1, Nat.mul_div_cancel_left k hd]

theorem patchMergingForwardShape_eval (b c d mh mw out : Nat)
    (hb : 0 < b) (hc : 0 < c) (hd : 0 < d) (hmh : 0 < mh) (hmw : 0 < mw) :
    patchMergingForwardShape c out d [b, c, d * mh, d * mw] = some [b, mh, mw, out] := by
  have hu : unfoldShape d [b, c, d * mh, d * mw] =
      some [b, c * (d * d), mh * mw] := by
    show (if 0 < d ∧ d ≤ d * mh ∧ d ≤ d * mw
      then some [b, c * (d * d), ((d * mh - d) / d + 1) * ((d * mw - d) / d + 1)]
      else none) = some [b, c * (d * d), mh * mw]
    rw [if_pos ⟨hd, Nat.le_mul_of_pos_right d hmh, Nat.le_mul_of_pos_right d hmw⟩,
      unfold_window_count d hd mh hmh, unfold_window_count d hd mw hmw]
  have hrest : numel [b] * numel [mh, mw] = b * mh * mw := by
    unfold numel
    simp only [List.prod_cons, List.prod_nil]
    ring
  have hprod : numel [b, c * (d * d), mh * mw] = b * mh * mw * (c * (d * d)) := by
    unfold numel
    simp only [List.prod_cons, List.prod_nil]
    ring
  have hrpos : 0 < b * mh * mw := by positivity
  have hvi : viewInferShape [b, c * (d * d), mh * mw] [b] [mh, mw] =
      some [b, c * (d * d), mh, mw] := by
    unfold viewInferShape
    rw [hrest, hprod]
    rw [if_pos ⟨hrpos, ⟨c * (d * d), by ring⟩⟩]
    rw [Nat.mul_div_cancel_left _ hrpos]
    rfl
  have hperm : permuteShape [b, c * (d * d), mh, mw] [0, 2, 3, 1] =
      some [b, mh, mw, c * (d * d)] := by
    unfold permuteShape
    rw [if_pos ⟨rfl, by decide, by intro i hi; simp at hi ⊢; omega⟩]
    rfl
  have hlin : linearShape (c * d ^ 2) out [b, mh, mw, c * (d * d)] =
      some [b, mh, mw, out] := by
    have he : c * (d * d) = c * d ^ 2 := by ring
    rw [he]
    simp [linearShape]
  unfold patchMergingForwardShape
  dsimp only
  rw [Nat.mul_div_cancel_left mh hd, Nat.mul_div_cancel_left mw hd]
  rw [hu, Option.some_bind, hvi, Option.some_bind, hperm, Option.some_bind, hlin]

theorem stageLoopV1_fixed {T : Type} (f : SwinBlockV1 → T → Option MaskPair → T)
    (m : MaskPair) (r sh : SwinBlockV1) (x : T)
    (hx : f sh (f r x none) (some m) = x) :
    ∀ n, stageLoopV1 f (List.replicate n r) (List.replicate n sh) m x = x := by
  intro n
  induction n with
  | zero => rfl
  | succ n ih =>
    rw [List.replicate_succ, List.replicate_succ]
    show stageLoopV1 f (r :: List.replicate n r) (sh :: List.replicate n sh) m x = x
    rw [stageLoopV1, hx]
    exact ih

theorem stageModuleV1_forwardShape_eval (b c d ws nh nw heads dk ffn L : Nat)
    (hb : 0 < b) (hc : 0 < c) (hd : 0 < d) (hws : 0 < ws) (hnh : 0 < nh)
    (hnw : 0 < nw) (hheads : 0 < heads) (hdk : 0 < dk) :
    StageModuleV1.forwardShape (initStageModuleV1 c (heads * dk) ws heads ffn L d)
      [b, c, d * (ws * nh), d * (ws * nw)] = some [b, heads * dk, ws * nh, ws * nw] := by
  have hdkdiv : heads * dk / heads = dk := Nat.mul_div_cancel_left dk hheads
  have hpm := patchMergingForwardShape_eval b c d (ws * nh) (ws * nw) (heads * dk)
    hb hc hd (by positivity) (by positivity)
  have hblockreg : SwinBlockV1.forwardShape (initSwinBlockV1 (heads * dk) ws heads 0 ffn)
      [b, ws * nh, ws * nw, heads * dk] none = some [b, ws * nh, ws * nw, heads * dk] := by
    unfold initSwinBlockV1 initWindowAttentionV1
    rw [hdkdiv]
    exact swinBlockV1_forwardShape_eval heads dk ws 0 nh nw b ffn _ hws hheads hdk hb
      hnh hnw none (Or.inl rfl)
  have hblockshf : SwinBlockV1.forwardShape
      (initSwinBlockV1 (heads * dk) ws heads (ws / 2) ffn)
      [b, ws * nh, ws * nw, heads * dk]
      (some (upper_lower_mask ws (ws / 2), left_right_mask ws (ws / 2))) =
      some [b, ws * nh, ws * nw, heads * dk] := by
    unfold initSwinBlockV1 initWindowAttentionV1
    rw [hdkdiv]
    exact swinBlockV1_forwardShape_eval heads dk ws (ws / 2) nh nw b ffn _ hws hheads hdk
      hb hnh hnw _ (Or.inr rfl)
  have hx : ((some [b, ws * nh, ws * nw, heads * dk]).bind fun s1 =>
      (initSwinBlockV1 (heads * dk) ws heads 0 ffn).forwardShape s1 none).bind
      (fun s2 => (initSwinBlockV1 (heads * dk) ws heads (ws / 2) ffn).forwardShape s2
        (some (upper_lower_mask ws (ws / 2), left_right_mask ws (ws / 2)))) =
      some [b, ws * nh, ws * nw, heads * dk] := by
    rw [Option.some_bind, hblockreg, Option.some_bind, hblockshf]
  have hperm : permuteShape [b, ws * nh, ws * nw, heads * dk] [0, 3, 1, 2] =
      some [b, heads * dk, ws * nh, ws * nw] := by
    unfold permuteShape
    rw [if_pos ⟨rfl, by decide, by intro i hi; simp at hi ⊢; omega⟩]
    rfl
  unfold StageModuleV1.forwardShape
  simp only [initStageModuleV1]
  rw [hpm, Option.some_bind]
  rw [stageLoopV1_fixed _ _ _ _ _ hx (L / 2)]
  rw [Option.some_bind, hperm]

theorem swinTransformerV1_forwardShape_eval
    (bb c ncls ws ffn h1 k1 h2 k2 h3 k3 h4 k4 L1 L2 L3 L4 d1 d2 d3 d4
      nh1 nw1 nh2 nw2 nh3 nw3 nh4 nw4 : Nat)
    (hbb : 0 < bb) (hc : 0 < c) (hws : 0 < ws)
    (hh1 : 0 < h1) (hh2 : 0 < h2) (hh3 : 0 < h3) (hh4 : 0 < h4)
    (hk1 : 0 < k1) (hk2 : 0 < k2) (hk3 : 0 < k3) (hk4 : 0 < k4)
    (hd1 : 0 < d1) (hd2 : 0 < d2) (hd3 : 0 < d3) (hd4 : 0 < d4)
    (hnh4 : 0 < nh4) (hnw4 : 0 < nw4)
    (hf2 : h1 * k1 * 2 = h2 * k2) (hf3 : h1 * k1 * 4 = h3 * k3)
    (hf4 : h1 * k1 * 8 = h4 * k4)
    (hs2 : ws * nh1 = d2 * (ws * nh2)) (ht2 : ws * nw1 = d2 * (ws * nw2))
    (hs3 : ws * nh2 = d3 * (ws * nh3)) (ht3 : ws * nw2 = d3 * (ws * nw3))
    (hs4 : ws * nh3 = d4 * (ws * nh4)) (ht4 : ws * nw3 = d4 * (ws * nw4)) :
    SwinTransformerV1.forwardShape
      (initSwinTransformerV1 c ncls (h1 * k1) ws (h1, h2, h3, h4)
        (L1, L2, L3, L4) (d1, d2, d3, d4) ffn)
      [bb, c, d1 * (ws * nh1), d1 * (ws * nw1)] = some [bb, ncls] := by
  have hnh3 : 0 < nh3 := by
    rcases Nat.eq_zero_or_pos nh3 with h0 | h0
    · rw [h0, Nat.mul_zero] at hs4
      have : 0 < d4 * (ws * nh4) := by positivity
      omega
    · exact h0
  have hnw3 : 0 < nw3 := by
    rcases Nat.eq_zero_or_pos nw3 with h0 | h0
    · rw [h0, Nat.mul_zero] at ht4
      have : 0 < d4 * (ws * nw4) := by positivity
      omega
    · exact h0
  have hnh2 : 0 < nh2 := by
    rcases Nat.eq_zero_or_pos nh2 with h0 | h0
    · rw [h0, Nat.mul_zero] at hs3
      have : 0 < d3 * (ws * nh3) := by positivity
      omega
    · exact h0
  have hnw2 : 0 < nw2 := by
    rcases Nat.eq_zero_or_pos nw2 with h0 | h0
    · rw [h0, Nat.mul_zero] at ht3
      have : 0 < d3 * (ws * nw3) := by positivity
      omega
    · exact h0
  have hnh1 : 0 < nh1 := by
    rcases Nat.eq_zero_or_pos nh1 with h0 | h0
    · rw [h0, Nat.mul_zero] at hs2
      have : 0 < d2 * (ws * nh2) := by positivity
      omega
    · exact h0
  have hnw1 : 0 < nw1 := by
    rcases Nat.eq_zero_or_pos nw1 with h0 | h0
    · rw [h0, Nat.mul_zero] at ht2
      have : 0 < d2 * (ws * nw2) := by positivity
      omega
    · exact h0
  have hst1 := stageModuleV1_forwardShape_eval bb c d1 ws nh1 nw1 h1 k1 ffn L1
    hbb hc hd1 hws hnh1 hnw1 hh1 hk1
  have hst2 := stageModuleV1_forwardShape_eval bb (h1 * k1) d2 ws nh2 nw2 h2 k2 ffn L2
    hbb (by positivity) hd2 hws hnh2 hnw2 hh2 hk2
  have hst3 := stageModuleV1_forwardShape_eval bb (h2 * k2) d3 ws nh3 nw3 h3 k3 ffn L3
    hbb (by positivity) hd3 hws hnh3 hnw3 hh3 hk3
  have hst4 := stageModuleV1_forwardShape_eval bb (h3 * k3) d4 ws nh4 nw4 h4 k4 ffn L4
    hbb (by positivity) hd4 hws hnh4 hnw4 hh4 hk4
  have hmean : meanDims23 [bb, h4 * k4, ws * nh4, ws * nw4] = some [bb, h4 * k4] := by
    unfold meanDims23
    rw [if_pos (by simp)]
    rfl
  have hln : layerNormShape (h4 * k4) [bb, h4 * k4] = some [bb, h4 * k4] := by
    simp [layerNormShape]
  have hlin : linearShape (h4 * k4) ncls [bb, h4 * k4] = some [bb, ncls] := by
    simp [linearShape]
  unfold SwinTransformerV1.forwardShape
  simp only [initSwinTransformerV1]
  rw [hst1, Option.some_bind, hs2, ht2, hf2]
  rw [hst2, Option.some_bind, hs3, ht3, hf3]
  rw [hst3, Option.some_bind, hs4, ht4, hf4]
  rw [hst4, Option.some_bind]
  rw [hmean, Option.some_bind, hln, Option.some_bind, hlin]

theorem multiHeadAttentionForwardShape_eval (bb n hh dk : Nat)
    (hbb : 0 < bb) (hn : 0 < n) (hhh : 0 < hh) (hdk : 0 < dk) :
    multiHeadAttentionForwardShape hh dk (hh * dk)
      [bb, n, hh * dk] [bb, n, hh * dk] [bb, n, hh * dk] = some [bb, n, hh * dk] := by
  have hlin : linearShape (hh * dk) (hh * dk) [bb, n, hh * dk] =
      some [bb, n, hh * dk] := by simp [linearShape]
  have hr : numel [bb] * numel [hh, dk] = bb * (hh * dk) := by
    unfold numel
    simp only [List.prod_cons, List.prod_nil]
    ring
  have hrpos : 0 < bb * (hh * dk) := by positivity
  have hp : numel [bb, n, hh * dk] = bb * (hh * dk) * n := by
    unfold numel
    simp only [List.prod_cons, List.prod_nil]
    ring
  have hvi : viewInferShape [bb, n, hh * dk] [bb] [hh, dk] = some [bb, n, hh, dk] := by
    unfold viewInferShape
    rw [hr, hp]
    rw [if_pos ⟨hrpos, ⟨n, by ring⟩⟩]
    rw [Nat.mul_div_cancel_left _ hrpos]
    rfl
  have hr2 : numel [bb] * numel [hh * dk] = bb * (hh * dk) := by
    unfold numel
    simp only [List.prod_cons, List.prod_nil]
    ring
  have hp2 : numel [bb, n, hh, dk] = bb * (hh * dk) * n := by
    unfold numel
    simp only [List.prod_cons, List.prod_nil]
    ring
  have hvi2 : viewInferShape [bb, n, hh, dk] [bb] [hh * dk] = some [bb, n, hh * dk] := by
    unfold viewInferShape
    rw [hr2, hp2]
    rw [if_pos ⟨hrpos, ⟨n, by ring⟩⟩]
    rw [Nat.mul_div_cancel_left _ hrpos]
    rfl
  have hm1 : matmulShape [bb, hh, n, dk] [bb, hh, dk, n] = some [bb, hh, n, n] := by
    simp [matmulShape, broadcastRev_self]
  have hm2 : matmulShape [bb, hh, n, n] [bb, hh, n, dk] = some [bb, hh, n, dk] := by
    simp [matmulShape, broadcastRev_self]
  have ht1 : transpose12 [bb, n, hh, dk] = some [bb, hh, n, dk] := rfl
  have htL : transposeLast2 [bb, hh, n, dk] = some [bb, hh, dk, n] := rfl
  have ht2 : transpose12 [bb, hh, n, dk] = some [bb, n, hh, dk] := rfl
  unfold multiHeadAttentionForwardShape
  dsimp only
  simp only [hlin, hvi, hvi2, hm1, hm2, ht1, htL, ht2, Option.some_bind]

theorem encoderLayerForwardShape_eval (bb n hh dk dff : Nat)
    (hbb : 0 < bb) (hn : 0 < n) (hhh : 0 < hh) (hdk : 0 < dk) :
    encoderLayerForwardShape hh dk (hh * dk) dff [bb, n, hh * dk] =
      some [bb, n, hh * dk] := by
  have hln : layerNormShape (hh * dk) [bb, n, hh * dk] = some [bb, n, hh * dk] := by
    simp [layerNormShape]
  have hbc : broadcastShape [bb, n, hh * dk] [bb, n, hh * dk] =
      some [bb, n, hh * dk] := by simp [broadcastShape, broadcastRev_self]
  have hff : positionwiseFeedForwardShape (hh * dk) dff [bb, n, hh * dk] =
      some [bb, n, hh * dk] := by simp [positionwiseFeedForwardShape, linearShape]
  unfold encoderLayerForwardShape
  rw [hln, Option.some_bind,
    multiHeadAttentionForwardShape_eval bb n hh dk hbb hn hhh hdk, Option.some_bind,
    hbc, Option.some_bind, hln, Option.some_bind, hff, Option.some_bind, hbc]

theorem foldl_bind_fixed {α : Type} (g : α → Option α) (a : α) (hg : g a = some a) :
    ∀ l : List Nat, l.foldl (fun t _ => t.bind g) (some a) = some a := by
  intro l
  induction l with
  | nil => rfl
  | cons x xs ih =>
    rw [List.foldl_cons]
    show List.foldl _ ((some a).bind g) xs = some a
    rw [Option.some_bind, hg]
    exact ih

theorem encoderForwardShape_eval (bb n hh dk dff nl : Nat)
    (hbb : 0 < bb) (hn : 0 < n) (hhh : 0 < hh) (hdk : 0 < dk) :
    encoderForwardShape hh dk (hh * dk) dff nl [bb, n, hh * dk] =
      some [bb, n, hh * dk] := by
  have hln : layerNormShape (hh * dk) [bb, n, hh * dk] = some [bb, n, hh * dk] := by
    simp [layerNormShape]
  unfold encoderForwardShape
  rw [foldl_bind_fixed _ _ (encoderLayerForwardShape_eval bb n hh dk dff hbb hn hhh hdk),
    Option.some_bind, hln]

theorem vit_forwardShape_eval (bb cin ncls hh dk nl dff p np_h np_w : Nat)
    (hbb : 0 < bb) (hcin : 0 < cin) (hp : 0 < p) (hnph : 0 < np_h) (hnpw : 0 < np_w)
    (hhh : 0 < hh) (hdk : 0 < dk) :
    vitForwardShape p cin (hh * dk) ncls hh nl dff (np_h * np_w + 1)
      [bb, cin, p * np_h, p * np_w] = some [bb, ncls] := by
  have hconv : conv2dShape cin (hh * dk) p p [bb, cin, p * np_h, p * np_w] =
      some [bb, hh * dk, np_h, np_w] := by
    unfold conv2dShape
    show (if cin = cin ∧ 0 < p ∧ p ≤ p * np_h ∧ p ≤ p * np_w
      then some [bb, hh * dk, (p * np_h - p) / p + 1, (p * np_w - p) / p + 1]
      else none) = some [bb, hh * dk, np_h, np_w]
    rw [if_pos ⟨rfl, hp, Nat.le_mul_of_pos_right p hnph, Nat.le_mul_of_pos_right p hnpw⟩,
      unfold_window_count p hp np_h hnph, unfold_window_count p hp np_w hnpw]
  have hcat : catDim1 [bb, 1, hh * dk] [bb, np_h * np_w, hh * dk] =
      some [bb, 1 + np_h * np_w, hh * dk] := by
    simp [catDim1]
  have hpe : patchEmbeddingForwardShape p cin (hh * dk) [bb, cin, p * np_h, p * np_w] =
      some [bb, 1 + np_h * np_w, hh * dk] := by
    unfold patchEmbeddingForwardShape
    rw [hconv, Option.some_bind]
    rw [show flattenFrom2 [bb, hh * dk, np_h, np_w] =
      some [bb, hh * dk, np_h * np_w] from rfl, Option.some_bind]
    rw [show transpose12 [bb, hh * dk, np_h * np_w] =
      some [bb, np_h * np_w, hh * dk] from rfl, Option.some_bind]
    exact hcat
  have hadd : 1 + np_h * np_w = np_h * np_w + 1 := Nat.add_comm 1 _
  have hpos : positionalEmbeddingForwardShape (np_h * np_w + 1) (hh * dk)
      [bb, 1 + np_h * np_w, hh * dk] = some [bb, 1 + np_h * np_w, hh * dk] := by
    unfold positionalEmbeddingForwardShape
    by_cases hbb1 : bb = 1 <;>
      simp [broadcastShape, broadcastRev, hadd, hbb1]
  have hdiv : hh * dk / hh = dk := Nat.mul_div_cancel_left dk hhh
  have hsel : selectDim1Zero [bb, 1 + np_h * np_w, hh * dk] = some [bb, hh * dk] := by
    show (if 0 < 1 + np_h * np_w then some [bb, hh * dk] else none) = some [bb, hh * dk]
    rw [if_pos (by omega)]
  have hgen : linearShape (hh * dk) ncls [bb, hh * dk] = some [bb, ncls] := by
    simp [linearShape]
  unfold vitForwardShape
  rw [hpe, Option.some_bind, hpos, Option.some_bind, hdiv,
    encoderForwardShape_eval bb (1 + np_h * np_w) hh dk dff nl hbb (by omega) hhh hdk,
    Option.some_bind, hsel, Option.some_bind, hgen]

/-- C1: for every `[batch, channels, height, width]` input whose dimensions are
compatible with the configured patch/downscaling and window sizes, the v1
SwinTransformer forward and the ViT forward return shape
`[batch, num_classes]` (v1: the stage-`i` spatial extent factors as
`d_i * (window_size * n_i)`, head counts divide the stage widths
`F, 2F, 4F, 8F`; ViT: the image splits into `np_h * np_w` patches of size `p`
and `num_steps = np_h * np_w + 1`). The v2 forward, however, never returns:
at the notebook configuration (window 3, heads `(3, 6, 12, 24)`, layers
`(2, 2, 4, 2)`) on its own `[128, 1, 96, 96]` training batches it raises —
`max(self.tau, 0.01)` on the multi-element `tau`, then
`self.num_of_heads`/`norm1(..., mask)` — instead of producing
`[batch, num_classes]`. -/
theorem forward_output_shape_spec :
    (∀ bb c ncls ws ffn h1 k1 h2 k2 h3 k3 h4 k4 L1 L2 L3 L4 d1 d2 d3 d4
        nh1 nw1 nh2 nw2 nh3 nw3 nh4 nw4 : Nat,
      0 < bb → 0 < c → 0 < ws → 0 < h1 → 0 < h2 → 0 < h3 → 0 < h4 →
      0 < k1 → 0 < k2 → 0 < k3 → 0 < k4 → 0 < d1 → 0 < d2 → 0 < d3 → 0 < d4 →
      0 < nh4 → 0 < nw4 →
      h1 * k1 * 2 = h2 * k2 → h1 * k1 * 4 = h3 * k3 → h1 * k1 * 8 = h4 * k4 →
      ws * nh1 = d2 * (ws * nh2) → ws * nw1 = d2 * (ws * nw2) →
      ws * nh2 = d3 * (ws * nh3) → ws * nw2 = d3 * (ws * nw3) →
      ws * nh3 = d4 * (ws * nh4) → ws * nw3 = d4 * (ws * nw4) →
      SwinTransformerV1.forwardShape
        (initSwinTransformerV1 c ncls (h1 * k1) ws (h1, h2, h3, h4)
          (L1, L2, L3, L4) (d1, d2, d3, d4) ffn)
        [bb, c, d1 * (ws * nh1), d1 * (ws * nw1)] = some [bb, ncls]) ∧
    (∀ bb cin ncls hh dk nl dff p np_h np_w : Nat,
      0 < bb → 0 < cin → 0 < p → 0 < np_h → 0 < np_w → 0 < hh → 0 < dk →
      vitForwardShape p cin (hh * dk) ncls hh nl dff (np_h * np_w + 1)
        [bb, cin, p * np_h, p * np_w] = some [bb, ncls]) ∧
    SwinTransformerV2.forwardShape
      (initSwinTransformerV2 1 10 96 3 (3, 6, 12, 24) (2, 2, 4, 2) (4, 2, 2, 2) 4)
      [128, 1, 96, 96] = Except.error PyErr.runtimeError := by
  refine ⟨?_, ?_, ?_⟩
  · intro bb c ncls ws ffn h1 k1 h2 k2 h3 k3 h4 k4 L1 L2 L3 L4 d1 d2 d3 d4
      nh1 nw1 nh2 nw2 nh3 nw3 nh4 nw4
      hbb hc hws hh1 hh2 hh3 hh4 hk1 hk2 hk3 hk4 hd1 hd2 hd3 hd4 hnh4 hnw4
      hf2 hf3 hf4 hs2 ht2 hs3 ht3 hs4 ht4
    exact swinTransformerV1_forwardShape_eval bb c ncls ws ffn h1 k1 h2 k2 h3 k3 h4 k4
      L1 L2 L3 L4 d1 d2 d3 d4 nh1 nw1 nh2 nw2 nh3 nw3 nh4 nw4
      hbb hc hws hh1 hh2 hh3 hh4 hk1 hk2 hk3 hk4 hd1 hd2 hd3 hd4 hnh4 hnw4
      hf2 hf3 hf4 hs2 ht2 hs3 ht3 hs4 ht4
  · intro bb cin ncls hh dk nl dff p np_h np_w hbb hcin hp hnph hnpw hhh hdk
    exact vit_forwardShape_eval bb cin ncls hh dk nl dff p np_h np_w
      hbb hcin hp hnph hnpw hhh hdk
  · rfl
